import Mathlib

/-!
# Breakout: collision detection, collision resolution and the frame loop

A shallow embedding of `src/game.cpp` / `src/game.h`.

Scalars.  The program computes in `float`.  The embedding is generic in an
ordered field `K` that stands for the scalars in exact arithmetic, and in the
square-root function `sqrt : K → K` used by `glm::length` and
`glm::normalize`.  Theorems assume `IsSqrt sqrt` (the square root is exact on
non-negative arguments); closed examples instantiate `K := ℝ`,
`sqrt := Real.sqrt`, or `K := ℚ` where no square root is taken.  Rounding is not
modelled.

Conversions.  Line 338 calls the unqualified `abs`, which is the C function
`int abs(int)` (lines 280 and 291 call `std::abs`): its `float` argument is converted
to `int`.  That conversion is the parameter `toInt : K → Int`; theorems that depend on
it assume `IsTruncation toInt`, and closed examples instantiate `truncate`.

Division by zero.  `glm::normalize` of the zero vector multiplies `0` by
`1 / sqrt 0`, which is NaN in `float`; every comparison with NaN is false.  In
a field `x / 0 = 0`, so the normalised zero vector is the zero vector here and
every test `dot_product > max` of `VectorDirection` is false as well: the
classifier returns `-1` in both readings.
-/

namespace Breakout

/-- Two-component vector, `glm::vec2`. -/
@[ext]
structure Vec2 (K : Type) where
  x : K
  y : K

variable {K : Type} [LinearOrderedField K]

namespace Vec2

instance : Add (Vec2 K) where
  add a b := ⟨a.x + b.x, a.y + b.y⟩

instance : Sub (Vec2 K) where
  sub a b := ⟨a.x - b.x, a.y - b.y⟩

instance : Neg (Vec2 K) where
  neg a := ⟨-a.x, -a.y⟩

/-- Vector plus scalar, `vec2 + float`: the scalar is added to both components. -/
def addScalar (a : Vec2 K) (s : K) : Vec2 K := ⟨a.x + s, a.y + s⟩

/-- Vector times scalar, `vec2 * float`. -/
def scale (a : Vec2 K) (s : K) : Vec2 K := ⟨a.x * s, a.y * s⟩

/-- Dot product, `glm::dot`. -/
def dot (a b : Vec2 K) : K := a.x * b.x + a.y * b.y

/-- Euclidean length, `glm::length(v) = sqrt(dot(v, v))`. -/
def length (sqrt : K → K) (a : Vec2 K) : K := sqrt (dot a a)

/-- Reciprocal square root, `glm::inversesqrt`. -/
def inversesqrt (sqrt : K → K) (s : K) : K := 1 / sqrt s

/-- Unit vector, `glm::normalize(v) = v * inversesqrt(dot(v, v))`. -/
def normalize (sqrt : K → K) (a : Vec2 K) : Vec2 K :=
  scale a (inversesqrt sqrt (dot a a))

/-- Component-wise clamp, `glm::clamp(v, lo, hi) = min(max(v, lo), hi)`. -/
def clamp (v lo hi : Vec2 K) : Vec2 K :=
  ⟨min (max v.x lo.x) hi.x, min (max v.y lo.y) hi.y⟩

end Vec2

/-- The square-root function is exact on non-negative arguments. -/
def IsSqrt (sqrt : K → K) : Prop :=
  ∀ a : K, 0 ≤ a → 0 ≤ sqrt a ∧ sqrt a * sqrt a = a

/-- Modelled from the spec: `enum Direction` is declared in a header that is
not part of the sources; the enumeration order is Up, Right, Down, Left, the order
of the `compass` array.  The classifier casts an `int` to the enum, so the
carrier is `Int` and the value `-1` (no match) is representable. -/
abbrev Direction := Int

/-- Enumerator `UP`. -/
def UP : Direction := 0
/-- Enumerator `RIGHT`. -/
def RIGHT : Direction := 1
/-- Enumerator `DOWN`. -/
def DOWN : Direction := 2
/-- Enumerator `LEFT`. -/
def LEFT : Direction := 3

/-- The array `compass[]` of `Game::VectorDirection`, by index. -/
def compass : Nat → Vec2 K
  | 0 => ⟨0, 1⟩
  | 1 => ⟨1, 0⟩
  | 2 => ⟨0, -1⟩
  | _ => ⟨-1, 0⟩

/-- One iteration of the loop of `Game::VectorDirection`; the loop state is
`(max, best_match)`. -/
def VectorDirection.body (sqrt : K → K) (target : Vec2 K) (st : K × Int) (i : Nat) : K × Int :=
  let dot_product := Vec2.dot (Vec2.normalize sqrt target) (compass i)
  if dot_product > st.1 then (dot_product, (i : Int)) else st

/-- Embedding of `Game::VectorDirection`: `max = 0`, `best_match = -1`, then the loop
over `i = 0, 1, 2, 3`; the result is `(Direction)best_match`. -/
def VectorDirection (sqrt : K → K) (target : Vec2 K) : Direction :=
  ((List.range 4).foldl (VectorDirection.body sqrt target) (0, -1)).2

/-- Modelled from the spec: class `GameObject` is declared in a header that is not
part of the sources; these are the fields of the spec's Entity that `game.cpp`
reads or writes. -/
structure GameObject (K : Type) where
  Position : Vec2 K
  Size : Vec2 K
  IsSolid : Bool
  Destroyed : Bool

/-- Modelled from the spec: class `BallObject` is declared in a header that is not
part of the sources; these are the fields of the spec's Ball that `game.cpp`
reads or writes. -/
structure BallObject (K : Type) where
  Position : Vec2 K
  Velocity : Vec2 K
  Radius : K
  Stuck : Bool

/-- The tuple `Collision`: contact flag, direction, difference vector. -/
abbrev Collision (K : Type) := Bool × Direction × Vec2 K

/-- Embedding of `Game::CheckCollision(BallObject&, GameObject&)`, circle against box. -/
def CheckCollision (sqrt : K → K) (one : BallObject K) (two : GameObject K) : Collision K :=
  let center : Vec2 K := one.Position.addScalar one.Radius
  let aabb_half_extents : Vec2 K := ⟨two.Size.x / 2, two.Size.y / 2⟩
  let aabb_center : Vec2 K :=
    ⟨two.Position.x + aabb_half_extents.x, two.Position.y + aabb_half_extents.y⟩
  let difference := center - aabb_center
  let clamped := Vec2.clamp difference (-aabb_half_extents) aabb_half_extents
  let closest := aabb_center + clamped
  let difference := closest - center
  if Vec2.length sqrt difference ≤ one.Radius then
    (true, VectorDirection sqrt difference, difference)
  else
    (false, UP, ⟨0, 0⟩)

/-- Embedding of `Game::CheckCollision(GameObject&, GameObject&)`, box against box.  The
two overloads share the name in the source. -/
def CheckCollision.aabb (one two : GameObject K) : Bool :=
  let collisionX : Bool :=
    decide (one.Position.x + one.Size.x ≥ two.Position.x) &&
      decide (two.Position.x + two.Size.x ≥ one.Position.x)
  let collisionY : Bool :=
    decide (one.Position.y + one.Size.y ≥ two.Position.y) &&
      decide (two.Position.y + two.Size.y ≥ one.Position.y)
  collisionX && collisionY

/-! ## Collision resolution -/

/-- Body of the brick loop of `Game::DoCollisions` for one brick `box`: the ball and the
brick after the iteration. -/
def DoCollisions.brick (sqrt : K → K) (ball : BallObject K) (box : GameObject K) :
    BallObject K × GameObject K :=
  if !box.Destroyed then
    let collistion := CheckCollision sqrt ball box
    if collistion.1 then
      let box := if !box.Destroyed then { box with Destroyed := true } else box
      let dir := collistion.2.1
      let diff_vector := collistion.2.2
      if dir = LEFT ∨ dir = RIGHT then
        let ball := { ball with Velocity := ⟨-ball.Velocity.x, ball.Velocity.y⟩ }
        let penetration := ball.Radius - |diff_vector.x|
        if dir = LEFT then
          ({ ball with Position := ⟨ball.Position.x + penetration, ball.Position.y⟩ }, box)
        else
          ({ ball with Position := ⟨ball.Position.x - penetration, ball.Position.y⟩ }, box)
      else
        let ball := { ball with Velocity := ⟨ball.Velocity.x, -ball.Velocity.y⟩ }
        let penetration := ball.Radius - |diff_vector.y|
        if dir = UP then
          ({ ball with Position := ⟨ball.Position.x, ball.Position.y - penetration⟩ }, box)
        else
          ({ ball with Position := ⟨ball.Position.x, ball.Position.y + penetration⟩ }, box)
    else (ball, box)
  else (ball, box)

/-- The brick loop of `Game::DoCollisions`, in brick order: the ball and the bricks after
the loop. -/
def DoCollisions.bricks (sqrt : K → K) (ball : BallObject K) :
    List (GameObject K) → BallObject K × List (GameObject K)
  | [] => (ball, [])
  | box :: rest =>
    let r := DoCollisions.brick sqrt ball box
    let rs := DoCollisions.bricks sqrt r.1 rest
    (rs.1, r.2 :: rs.2)

/-- Truncation toward zero, where the scalars have a floor function. -/
def truncate [FloorRing K] (x : K) : Int :=
  if 0 ≤ x then ⌊x⌋ else ⌈x⌉

/-- The paddle part of `Game::DoCollisions`.  `INITIAL_BALL_VELOCITY` is a constant of a
header that is not part of the sources and is a parameter.  The first operand of the
condition is `&Ball->Stuck`, the address of the field, which is a non-null pointer and so
converts to `true` whatever the flag holds.  The unqualified `abs` of line 338 is the C
function `int abs(int)`: `Ball->Velocity.y` is converted to `int` by `toInt`, the product
`-1 * abs(..)` is computed in `int` and converted back to `float` by the assignment. -/
def DoCollisions.paddle (sqrt : K → K) (toInt : K → Int) (INITIAL_BALL_VELOCITY : Vec2 K)
    (ball : BallObject K) (player : GameObject K) : BallObject K :=
  let result := CheckCollision sqrt ball player
  let addressOfStuck : Bool := true
  if addressOfStuck && result.1 then
    let centerBoard := player.Position.x + player.Size.x / 2
    let distance := (ball.Position.x + ball.Radius) - centerBoard
    let percentage := distance / (player.Size.x / 2)
    let strength : K := 2
    let oldVelocity := ball.Velocity
    let velocity : Vec2 K := ⟨INITIAL_BALL_VELOCITY.x * percentage * strength, ball.Velocity.y⟩
    let velocity : Vec2 K := ⟨velocity.x, ((-1 * |toInt velocity.y| : Int) : K)⟩
    { ball with
      Velocity := Vec2.scale (Vec2.normalize sqrt velocity) (Vec2.length sqrt oldVelocity) }
  else ball

/-! ## The game -/

/-- The enumeration `GameState` of `game.h`. -/
inductive GameState where
  | GAME_ACTIVE
  | GAME_MENU
  | GAME_WIN
  deriving DecidableEq, Repr

open GameState

/-- Constant `PLAYER_SIZE` of `game.h`. -/
def PLAYER_SIZE : Vec2 K := ⟨100, 20⟩

/-- Constant `PLAYER_VELOCITY` of `game.h`. -/
def PLAYER_VELOCITY : K := 500

/-- Key code of the GLFW library. -/
def GLFW_KEY_SPACE : Nat := 32
/-- Key code of the GLFW library. -/
def GLFW_KEY_A : Nat := 65
/-- Key code of the GLFW library. -/
def GLFW_KEY_D : Nat := 68
/-- Key code of the GLFW library. -/
def GLFW_KEY_RIGHT : Nat := 262
/-- Key code of the GLFW library. -/
def GLFW_KEY_LEFT : Nat := 263

/-- Modelled from the spec: class `GameLevel` is declared in a header that is not part of
the sources; a level is its ordered sequence of bricks. -/
structure GameLevel (K : Type) where
  Bricks : List (GameObject K)

/-- The class `Game` of `game.h`, together with the globals `Player` and `Ball` of
`game.cpp`.  The renderer and the particle generator take no part in the simulation. -/
structure Game (K : Type) where
  State : GameState
  Keys : Nat → Bool
  Width : Nat
  Height : Nat
  Levels : List (GameLevel K)
  Level : Nat
  Player : GameObject K
  Ball : BallObject K

/-- The bricks of `this->Levels[this->Level]`.  Indexing past the end is undefined in the
source; the model then has no brick to visit. -/
def Game.activeBricks (g : Game K) : List (GameObject K) :=
  match g.Levels[g.Level]? with
  | some l => l.Bricks
  | none => []

/-- Embedding of `Game::DoCollisions`: the brick loop over the active level, then the
paddle. -/
def DoCollisions (sqrt : K → K) (toInt : K → Int) (INITIAL_BALL_VELOCITY : Vec2 K)
    (g : Game K) : Game K :=
  let r := DoCollisions.bricks sqrt g.Ball g.activeBricks
  { g with
    Levels := g.Levels.modify (fun l => { l with Bricks := r.2 }) g.Level
    Ball := DoCollisions.paddle sqrt toInt INITIAL_BALL_VELOCITY r.1 g.Player }

/-- Modelled from the spec: `BallObject::Move` is defined in a file that is not part of
the sources.  A stuck ball does not move; otherwise the position advances by
`velocity * dt` and is kept inside the left, right and top boundaries, the velocity
being reflected at the boundary that was reached.  The ball is `2 * Radius` wide. -/
def BallObject.Move (dt : K) (window_width : Nat) (b : BallObject K) : BallObject K :=
  if b.Stuck then b
  else
    let p : Vec2 K := b.Position + Vec2.scale b.Velocity dt
    let b : BallObject K := { b with Position := p }
    let b : BallObject K :=
      if b.Position.x ≤ 0 then
        { b with Velocity := ⟨-b.Velocity.x, b.Velocity.y⟩, Position := ⟨0, b.Position.y⟩ }
      else if b.Position.x + 2 * b.Radius ≥ (window_width : K) then
        { b with
          Velocity := ⟨-b.Velocity.x, b.Velocity.y⟩
          Position := ⟨(window_width : K) - 2 * b.Radius, b.Position.y⟩ }
      else b
    if b.Position.y ≤ 0 then
      { b with Velocity := ⟨b.Velocity.x, -b.Velocity.y⟩, Position := ⟨b.Position.x, 0⟩ }
    else b

/-- Embedding of `Game::Update`.  The ball's `Move` is a parameter; the particle update
reads the ball and writes only the particle generator. -/
def Update (sqrt : K → K) (toInt : K → Int) (INITIAL_BALL_VELOCITY : Vec2 K)
    (Move : K → Nat → BallObject K → BallObject K) (dt : K) (g : Game K) : Game K :=
  DoCollisions sqrt toInt INITIAL_BALL_VELOCITY { g with Ball := Move dt g.Width g.Ball }

/-- First statement of the active branch of `Game::ProcessInput`: keys A and Left. -/
def ProcessInput.left (velocity : K) (g : Game K) : Game K :=
  if g.Keys GLFW_KEY_A || g.Keys GLFW_KEY_LEFT then
    if g.Player.Position.x ≥ 0 then
      { g with
        Player := { g.Player with
          Position := ⟨g.Player.Position.x - velocity, g.Player.Position.y⟩ }
        Ball :=
          if g.Ball.Stuck then
            { g.Ball with Position := ⟨g.Ball.Position.x - velocity, g.Ball.Position.y⟩ }
          else g.Ball }
    else g
  else g

/-- Second statement of the active branch of `Game::ProcessInput`: keys D and Right. -/
def ProcessInput.right (velocity : K) (g : Game K) : Game K :=
  if g.Keys GLFW_KEY_D || g.Keys GLFW_KEY_RIGHT then
    if g.Player.Position.x ≤ (g.Width : K) - g.Player.Size.x then
      { g with
        Player := { g.Player with
          Position := ⟨g.Player.Position.x + velocity, g.Player.Position.y⟩ }
        Ball :=
          if g.Ball.Stuck then
            { g.Ball with Position := ⟨g.Ball.Position.x + velocity, g.Ball.Position.y⟩ }
          else g.Ball }
    else g
  else g

/-- Third statement of the active branch of `Game::ProcessInput`: the space key. -/
def ProcessInput.space (g : Game K) : Game K :=
  if g.Keys GLFW_KEY_SPACE then { g with Ball := { g.Ball with Stuck := false } } else g

/-- Embedding of `Game::ProcessInput`. -/
def ProcessInput (dt : K) (g : Game K) : Game K :=
  if g.State = GAME_ACTIVE then
    let velocity := PLAYER_VELOCITY * dt
    ProcessInput.space (ProcessInput.right velocity (ProcessInput.left velocity g))
  else g

/-- A sequence of frames of input: each frame sets the key states and calls
`ProcessInput` with the elapsed time of the frame. -/
def ProcessInput.frames : List ((Nat → Bool) × K) → Game K → Game K
  | [], g => g
  | f :: fs, g => ProcessInput.frames fs (ProcessInput f.2 { g with Keys := f.1 })

/-- Modelled from the spec: `GameLevel::Load` is defined in a file that is not part of
the sources.  The level-data loader yields the ordered (position, size, solid flag)
triples of the bricks and the level is rebuilt from them, no brick destroyed. -/
def GameLevel.Load (triples : List (Vec2 K × Vec2 K × Bool)) : GameLevel K :=
  ⟨triples.map (fun t => ⟨t.1, t.2.1, t.2.2, false⟩)⟩

/-- Modelled from the spec: `BallObject::Reset` is defined in a file that is not part of
the sources.  The ball is put at the given position with the given velocity and is
stuck again. -/
def BallObject.Reset (b : BallObject K) (position velocity : Vec2 K) : BallObject K :=
  { b with Position := position, Velocity := velocity, Stuck := true }

/-- Embedding of `Game::ResetLevel`.  The level-data loader is a parameter: it receives
the file name and the two dimensions the source passes. -/
def ResetLevel (loader : String → Nat → K → List (Vec2 K × Vec2 K × Bool)) (g : Game K) :
    Game K :=
  if g.Level = 0 then
    { g with
      Levels := g.Levels.set 0
        (GameLevel.Load (loader "levels/one.lvl" g.Width ((g.Height : K) * (1 / 2)))) }
  else if g.Level = 1 then
    { g with
      Levels := g.Levels.set 1
        (GameLevel.Load (loader "levels/two.lvl" g.Width ((g.Height : K) * (1 / 2)))) }
  else if g.Level = 2 then
    { g with
      Levels := g.Levels.set 2
        (GameLevel.Load (loader "levels/three.lvl" g.Width ((g.Height : K) * (1 / 2)))) }
  else if g.Level = 3 then
    { g with
      Levels := g.Levels.set 3
        (GameLevel.Load (loader "levels/four.lvl" g.Width ((g.Height : K) * (1 / 2)))) }
  else g

/-- The paddle position computed by `Game::Init` and `Game::ResetPlayer`.  `Width` is an
unsigned integer, so `Width / 2` is the integer quotient. -/
def playerStart (Width Height : Nat) : Vec2 K :=
  ⟨((Width / 2 : Nat) : K) - (PLAYER_SIZE : Vec2 K).x / 2,
    (Height : K) - (PLAYER_SIZE : Vec2 K).y⟩

/-- Embedding of `Game::ResetPlayer`.  `BALL_RADIUS` and `INITIAL_BALL_VELOCITY` are
constants of a header that is not part of the sources and are parameters. -/
def ResetPlayer (BALL_RADIUS : K) (INITIAL_BALL_VELOCITY : Vec2 K) (g : Game K) : Game K :=
  let player : GameObject K :=
    { g.Player with Size := PLAYER_SIZE, Position := playerStart g.Width g.Height }
  { g with
    Player := player
    Ball := g.Ball.Reset
      (player.Position +
        ⟨(PLAYER_SIZE : Vec2 K).x / 2 - BALL_RADIUS, -(BALL_RADIUS * 2)⟩)
      INITIAL_BALL_VELOCITY }

/-- Embedding of `Game::Render`; drawing has no effect on the game state. -/
def Render (loader : String → Nat → K → List (Vec2 K × Vec2 K × Bool))
    (BALL_RADIUS : K) (INITIAL_BALL_VELOCITY : Vec2 K) (g : Game K) : Game K :=
  if g.State = GAME_ACTIVE then
    if g.Ball.Position.y > (g.Height : K) then
      ResetPlayer BALL_RADIUS INITIAL_BALL_VELOCITY (ResetLevel loader g)
    else g
  else g

/-- The ball position computed by `Game::Init` and `Game::ResetPlayer` from the paddle
position; `BALL_RADIUS` is a parameter. -/
def ballStart (BALL_RADIUS : K) (Width Height : Nat) : Vec2 K :=
  playerStart Width Height +
    ⟨(PLAYER_SIZE : Vec2 K).x / 2 - BALL_RADIUS, -BALL_RADIUS * 2⟩

/-! ## Concrete scenes -/

/-- The ball of the spec's brick scenario: position (50,50), radius 10. -/
def scenarioBall : BallObject K := ⟨⟨50, 50⟩, ⟨100, -350⟩, 10, false⟩

/-- The brick of the spec's brick scenario: position (40,55), size (30,10). -/
def scenarioBrick : GameObject K := ⟨⟨40, 55⟩, ⟨30, 10⟩, false, false⟩

/-- A ball above the top edge of `scenarioBrick`: centre (55,50), radius 10. -/
def aboveBall : BallObject K := ⟨⟨45, 40⟩, ⟨100, 350⟩, 10, false⟩

/-- A paddle at its start position for an 800 by 600 field. -/
def startPaddle : GameObject K := ⟨⟨350, 580⟩, ⟨100, 20⟩, true, false⟩

/-- A live brick in the top left corner of the field. -/
def cornerBrick : GameObject K := ⟨⟨0, 0⟩, ⟨100, 20⟩, false, false⟩

/-- A ball of radius 10 resting on the middle of `startPaddle`, stuck, with velocity
(100,-350). -/
def restingBall : BallObject K := ⟨⟨390, 560⟩, ⟨100, -350⟩, 10, true⟩

/-- A game in which the ball is stuck on the paddle and the only brick is far away. -/
def stuckGame : Game K :=
  { State := GameState.GAME_ACTIVE
    Keys := fun _ => false
    Width := 800
    Height := 600
    Levels := [⟨[cornerBrick]⟩]
    Level := 0
    Player := startPaddle
    Ball := restingBall }

/-- A game with the paddle at the left edge of an 800 wide field and the key A held. -/
def leftEdgeGame : Game K :=
  { State := GameState.GAME_ACTIVE
    Keys := fun k => decide (k = GLFW_KEY_A)
    Width := 800
    Height := 600
    Levels := [⟨[cornerBrick]⟩]
    Level := 0
    Player := ⟨⟨0, 580⟩, ⟨100, 20⟩, true, false⟩
    Ball := ⟨⟨40, 560⟩, ⟨100, -350⟩, 10, true⟩ }

/-- One frame of one second with the key A held. -/
def holdA : List ((Nat → Bool) × K) := [(fun k => decide (k = GLFW_KEY_A), 1)]

/-- A destroyed brick in the top left corner of the field. -/
def deadBrick : GameObject K := ⟨⟨0, 0⟩, ⟨100, 20⟩, false, true⟩

/-- An active game whose level has all its bricks destroyed. -/
def clearedGame : Game K :=
  { State := GameState.GAME_ACTIVE
    Keys := fun _ => false
    Width := 800
    Height := 600
    Levels := [⟨[deadBrick]⟩]
    Level := 0
    Player := startPaddle
    Ball := restingBall }

/-- An active game whose ball is below the bottom edge of the 800 by 600 field, the
paddle being at the left edge and the only brick destroyed. -/
def fallenGame : Game K :=
  { State := GameState.GAME_ACTIVE
    Keys := fun _ => false
    Width := 800
    Height := 600
    Levels := [⟨[deadBrick]⟩]
    Level := 0
    Player := ⟨⟨0, 580⟩, ⟨100, 20⟩, true, false⟩
    Ball := ⟨⟨40, 601⟩, ⟨100, 350⟩, 10, false⟩ }

/-- A brick whose top left corner is the bottom right corner of `scenarioBrick`. -/
def cornerTouchBrick : GameObject K := ⟨⟨70, 65⟩, ⟨30, 10⟩, false, false⟩

/-! ## Specification-side notions -/

/-- The game with every destroyed brick removed from the brick list of the active
level. -/
def Game.dropDestroyed (g : Game K) : Game K :=
  { g with
    Levels := g.Levels.modify
      (fun l => { l with Bricks := l.Bricks.filter (fun box => !box.Destroyed) }) g.Level }


/-- Centre of the ball's circle: position plus radius on both axes. -/
def circleCentre (one : BallObject K) : Vec2 K :=
  ⟨one.Position.x + one.Radius, one.Position.y + one.Radius⟩

/-- Membership of a point in the closed rectangle of a box. -/
def inClosedBox (two : GameObject K) (q : Vec2 K) : Prop :=
  two.Position.x ≤ q.x ∧ q.x ≤ two.Position.x + two.Size.x ∧
  two.Position.y ≤ q.y ∧ q.y ≤ two.Position.y + two.Size.y

/-- Half extents of a box. -/
def halfExtents (two : GameObject K) : Vec2 K := ⟨two.Size.x / 2, two.Size.y / 2⟩

/-- Centre of a box. -/
def boxCentre (two : GameObject K) : Vec2 K :=
  ⟨two.Position.x + two.Size.x / 2, two.Position.y + two.Size.y / 2⟩

/-- The point of the box closest to the circle centre, as the spec writes it:
`boxCenter + clamp(centre - boxCenter, -halfExtents, +halfExtents)`. -/
def closestPoint (one : BallObject K) (two : GameObject K) : Vec2 K :=
  boxCentre two +
    Vec2.clamp (circleCentre one - boxCentre two) (-(halfExtents two)) (halfExtents two)

/-- Loop invariant of the classifier after the indices below `k`: either nothing was
positive so far and the state is the initial one, or the state holds the first index with
the greatest dot product so far. -/
def VectorDirection.Inv (sqrt : K → K) (t : Vec2 K) (k : Nat) (st : K × Int) : Prop :=
  (st.2 = -1 ∧ st.1 = 0 ∧
      ∀ j : Nat, j < k → Vec2.dot (Vec2.normalize sqrt t) (compass j) ≤ 0) ∨
    ∃ i : Nat, i < k ∧ st.2 = (i : Int) ∧
      st.1 = Vec2.dot (Vec2.normalize sqrt t) (compass i) ∧
      0 < Vec2.dot (Vec2.normalize sqrt t) (compass i) ∧
      (∀ j : Nat, j < k → Vec2.dot (Vec2.normalize sqrt t) (compass j) ≤
        Vec2.dot (Vec2.normalize sqrt t) (compass i)) ∧
      (∀ j : Nat, j < i → Vec2.dot (Vec2.normalize sqrt t) (compass j) <
        Vec2.dot (Vec2.normalize sqrt t) (compass i))

/-! ## Basic facts -/

section Basics

@[simp] theorem Vec2.add_x (a b : Vec2 K) : (a + b).x = a.x + b.x := rfl
@[simp] theorem Vec2.add_y (a b : Vec2 K) : (a + b).y = a.y + b.y := rfl
@[simp] theorem Vec2.sub_x (a b : Vec2 K) : (a - b).x = a.x - b.x := rfl
@[simp] theorem Vec2.sub_y (a b : Vec2 K) : (a - b).y = a.y - b.y := rfl
@[simp] theorem Vec2.neg_x (a : Vec2 K) : (-a).x = -a.x := rfl
@[simp] theorem Vec2.neg_y (a : Vec2 K) : (-a).y = -a.y := rfl

theorem IsSqrt.nonneg {sqrt : K → K} (hs : IsSqrt sqrt) {a : K} (ha : 0 ≤ a) : 0 ≤ sqrt a :=
  (hs a ha).1

theorem IsSqrt.mul_self {sqrt : K → K} (hs : IsSqrt sqrt) {a : K} (ha : 0 ≤ a) :
    sqrt a * sqrt a = a :=
  (hs a ha).2

theorem Vec2.dot_self_nonneg (v : Vec2 K) : 0 ≤ Vec2.dot v v := by
  unfold Vec2.dot
  nlinarith [mul_self_nonneg v.x, mul_self_nonneg v.y]

theorem Vec2.length_nonneg {sqrt : K → K} (hs : IsSqrt sqrt) (v : Vec2 K) :
    0 ≤ Vec2.length sqrt v :=
  hs.nonneg (Vec2.dot_self_nonneg v)

theorem Vec2.length_mul_self {sqrt : K → K} (hs : IsSqrt sqrt) (v : Vec2 K) :
    Vec2.length sqrt v * Vec2.length sqrt v = v.x * v.x + v.y * v.y :=
  hs.mul_self (Vec2.dot_self_nonneg v)

/-- The length test of the detector, without the square root. -/
theorem Vec2.length_le_iff {sqrt : K → K} (hs : IsSqrt sqrt) (v : Vec2 K) (r : K) :
    Vec2.length sqrt v ≤ r ↔ 0 ≤ r ∧ v.x * v.x + v.y * v.y ≤ r * r := by
  have h0 := Vec2.length_nonneg hs v
  have h1 := Vec2.length_mul_self hs v
  constructor
  · intro h
    refine ⟨le_trans h0 h, ?_⟩
    rw [← h1]
    exact mul_self_le_mul_self h0 h
  · rintro ⟨hr, h⟩
    rw [← h1] at h
    by_contra hlt
    push_neg at hlt
    have := mul_self_lt_mul_self hr hlt
    linarith

end Basics

/-! ## The closest-point projection -/

section Closest

/-- Scalar clamp of the detector, one axis: offset of the closest point from the box centre. -/
theorem clamp_axis_cases (t h : K) (hh : 0 ≤ h) :
    (t ≤ -h ∧ min (max t (-h)) h = -h) ∨ (-h ≤ t ∧ t ≤ h ∧ min (max t (-h)) h = t) ∨
      (h ≤ t ∧ min (max t (-h)) h = h) := by
  rcases le_total t (-h) with h1 | h1
  · left
    refine ⟨h1, ?_⟩
    rw [max_eq_right h1, min_eq_left (by linarith)]
  · rcases le_total t h with h2 | h2
    · right; left
      refine ⟨h1, h2, ?_⟩
      rw [max_eq_left h1, min_eq_left h2]
    · right; right
      refine ⟨h2, ?_⟩
      rw [max_eq_left h1, min_eq_right h2]

/-- On one axis the clamped point lies in the box interval. -/
theorem clamp_axis_mem (p s c : K) (hs : 0 ≤ s) :
    p ≤ p + s / 2 + min (max (c - (p + s / 2)) (-(s / 2))) (s / 2) ∧
      p + s / 2 + min (max (c - (p + s / 2)) (-(s / 2))) (s / 2) ≤ p + s := by
  have hh : (0 : K) ≤ s / 2 := by positivity
  rcases clamp_axis_cases (c - (p + s / 2)) (s / 2) hh with ⟨_, e⟩ | ⟨h1, h2, e⟩ | ⟨_, e⟩ <;>
    rw [e] <;> constructor <;> linarith

/-- On one axis the clamped point is at least as close to the centre as any point of the
box interval. -/
theorem clamp_axis_closest (p s c q : K) (hs : 0 ≤ s) (h1 : p ≤ q) (h2 : q ≤ p + s) :
    (p + s / 2 + min (max (c - (p + s / 2)) (-(s / 2))) (s / 2) - c) *
        (p + s / 2 + min (max (c - (p + s / 2)) (-(s / 2))) (s / 2) - c) ≤
      (q - c) * (q - c) := by
  have hh : (0 : K) ≤ s / 2 := by positivity
  rcases clamp_axis_cases (c - (p + s / 2)) (s / 2) hh with ⟨a, e⟩ | ⟨a, b, e⟩ | ⟨a, e⟩ <;>
    rw [e] <;> nlinarith [mul_self_nonneg (q - c)]

theorem closestPoint_x (one : BallObject K) (two : GameObject K) :
    (closestPoint one two).x =
      two.Position.x + two.Size.x / 2 +
        min (max (one.Position.x + one.Radius - (two.Position.x + two.Size.x / 2))
          (-(two.Size.x / 2))) (two.Size.x / 2) := rfl

theorem closestPoint_y (one : BallObject K) (two : GameObject K) :
    (closestPoint one two).y =
      two.Position.y + two.Size.y / 2 +
        min (max (one.Position.y + one.Radius - (two.Position.y + two.Size.y / 2))
          (-(two.Size.y / 2))) (two.Size.y / 2) := rfl

/-- The closest point belongs to the closed box when the box has non-negative size. -/
theorem closestPoint_mem (one : BallObject K) (two : GameObject K)
    (hx : 0 ≤ two.Size.x) (hy : 0 ≤ two.Size.y) : inClosedBox two (closestPoint one two) := by
  unfold inClosedBox
  rw [closestPoint_x, closestPoint_y]
  have a := clamp_axis_mem two.Position.x two.Size.x (one.Position.x + one.Radius) hx
  have b := clamp_axis_mem two.Position.y two.Size.y (one.Position.y + one.Radius) hy
  exact ⟨a.1, a.2, b.1, b.2⟩

/-- The detector unfolded: the contact test is made on `closest - centre`. -/
theorem CheckCollision_eq (sqrt : K → K) (one : BallObject K) (two : GameObject K) :
    CheckCollision sqrt one two =
      if Vec2.length sqrt (closestPoint one two - circleCentre one) ≤ one.Radius then
        (true, VectorDirection sqrt (closestPoint one two - circleCentre one),
          closestPoint one two - circleCentre one)
      else (false, UP, ⟨0, 0⟩) := rfl

theorem CheckCollision_contact_iff (sqrt : K → K) (one : BallObject K) (two : GameObject K) :
    (CheckCollision sqrt one two).1 = true ↔
      Vec2.length sqrt (closestPoint one two - circleCentre one) ≤ one.Radius := by
  rw [CheckCollision_eq]
  split_ifs with h <;> simp [h]

theorem CheckCollision_vector (sqrt : K → K) (one : BallObject K) (two : GameObject K)
    (h : (CheckCollision sqrt one two).1 = true) :
    (CheckCollision sqrt one two).2.2 = closestPoint one two - circleCentre one := by
  have h1 := (CheckCollision_contact_iff sqrt one two).1 h
  rw [CheckCollision_eq, if_pos h1]

theorem CheckCollision_direction (sqrt : K → K) (one : BallObject K) (two : GameObject K)
    (h : (CheckCollision sqrt one two).1 = true) :
    (CheckCollision sqrt one two).2.1 =
      VectorDirection sqrt (closestPoint one two - circleCentre one) := by
  have h1 := (CheckCollision_contact_iff sqrt one two).1 h
  rw [CheckCollision_eq, if_pos h1]

end Closest

/-! ## C1 -/

/-- C1: for a ball of radius `r ≥ 0` and a box of non-negative size, the circle-vs-box
`CheckCollision` reports contact exactly when the closed box contains a point whose
Euclidean distance to the circle centre `p + (r, r)` is at most `r`; and on contact the
returned vector is the closest point of the box minus the centre, the closest point
being `boxCenter + clamp(centre - boxCenter, -halfExtents, +halfExtents)`. -/
theorem checkCollision_contact_iff_box_meets_disc (sqrt : K → K) (hs : IsSqrt sqrt)
    (one : BallObject K) (two : GameObject K) (hr : 0 ≤ one.Radius)
    (hx : 0 ≤ two.Size.x) (hy : 0 ≤ two.Size.y) :
    ((CheckCollision sqrt one two).1 = true ↔
        ∃ q : Vec2 K, inClosedBox two q ∧
          Vec2.length sqrt (q - circleCentre one) ≤ one.Radius) ∧
      ((CheckCollision sqrt one two).1 = true →
        (CheckCollision sqrt one two).2.2 = closestPoint one two - circleCentre one) := by
  refine ⟨?_, CheckCollision_vector sqrt one two⟩
  rw [CheckCollision_contact_iff]
  constructor
  · intro h
    exact ⟨closestPoint one two, closestPoint_mem one two hx hy, h⟩
  · rintro ⟨q, ⟨q1, q2, q3, q4⟩, hq⟩
    rw [Vec2.length_le_iff hs] at hq ⊢
    refine ⟨hr, le_trans ?_ hq.2⟩
    have a := clamp_axis_closest two.Position.x two.Size.x (one.Position.x + one.Radius)
      q.x hx q1 q2
    have b := clamp_axis_closest two.Position.y two.Size.y (one.Position.y + one.Radius)
      q.y hy q3 q4
    simp only [Vec2.sub_x, Vec2.sub_y, closestPoint_x, closestPoint_y, circleCentre]
    exact add_le_add a b

/-! ## The direction classifier -/

section Classifier

theorem VectorDirection_unfold (sqrt : K → K) (t : Vec2 K) :
    VectorDirection sqrt t =
      (VectorDirection.body sqrt t (VectorDirection.body sqrt t
        (VectorDirection.body sqrt t (VectorDirection.body sqrt t (0, -1) 0) 1) 2) 3).2 := rfl

theorem dot_compass_zero (n : Vec2 K) : Vec2.dot n (compass 0) = n.y := by
  simp [Vec2.dot, compass]

theorem dot_compass_one (n : Vec2 K) : Vec2.dot n (compass 1) = n.x := by
  simp [Vec2.dot, compass]

theorem dot_compass_two (n : Vec2 K) : Vec2.dot n (compass 2) = -n.y := by
  simp [Vec2.dot, compass]

theorem dot_compass_three (n : Vec2 K) : Vec2.dot n (compass 3) = -n.x := by
  simp [Vec2.dot, compass]

theorem VectorDirection.Inv_init (sqrt : K → K) (t : Vec2 K) :
    VectorDirection.Inv sqrt t 0 (0, -1) :=
  Or.inl ⟨rfl, rfl, fun j hj => absurd hj (Nat.not_lt_zero j)⟩

theorem VectorDirection.Inv_step (sqrt : K → K) (t : Vec2 K) (k : Nat) (st : K × Int)
    (h : VectorDirection.Inv sqrt t k st) :
    VectorDirection.Inv sqrt t (k + 1) (VectorDirection.body sqrt t st k) := by
  unfold VectorDirection.body
  simp only []
  rcases h with ⟨h2, h1, hall⟩ | ⟨i, hik, h2, h1, hpos, hall, hfirst⟩
  · by_cases hc : Vec2.dot (Vec2.normalize sqrt t) (compass k) > st.1
    · rw [if_pos hc]
      right
      rw [h1] at hc
      refine ⟨k, Nat.lt_succ_self k, rfl, rfl, hc, ?_, ?_⟩
      · intro j hj
        rcases Nat.lt_succ_iff_lt_or_eq.1 hj with hj | hj
        · exact le_trans (hall j hj) (le_of_lt hc)
        · rw [hj]
      · intro j hj
        exact lt_of_le_of_lt (hall j hj) hc
    · rw [if_neg hc]
      left
      rw [h1] at hc
      refine ⟨h2, h1, ?_⟩
      intro j hj
      rcases Nat.lt_succ_iff_lt_or_eq.1 hj with hj | hj
      · exact hall j hj
      · rw [hj]; exact not_lt.1 hc
  · by_cases hc : Vec2.dot (Vec2.normalize sqrt t) (compass k) > st.1
    · rw [if_pos hc]
      right
      rw [h1] at hc
      refine ⟨k, Nat.lt_succ_self k, rfl, rfl, lt_trans hpos hc, ?_, ?_⟩
      · intro j hj
        rcases Nat.lt_succ_iff_lt_or_eq.1 hj with hj | hj
        · exact le_trans (hall j hj) (le_of_lt hc)
        · rw [hj]
      · intro j hj
        exact lt_of_le_of_lt (hall j hj) hc
    · rw [if_neg hc]
      right
      rw [h1] at hc
      refine ⟨i, Nat.lt_succ_of_lt hik, h2, h1, hpos, ?_, hfirst⟩
      intro j hj
      rcases Nat.lt_succ_iff_lt_or_eq.1 hj with hj | hj
      · exact hall j hj
      · rw [hj]; exact not_lt.1 hc

/-- The invariant holds of the final loop state. -/
theorem VectorDirection.Inv_final (sqrt : K → K) (t : Vec2 K) :
    VectorDirection.Inv sqrt t 4
      (VectorDirection.body sqrt t (VectorDirection.body sqrt t
        (VectorDirection.body sqrt t (VectorDirection.body sqrt t (0, -1) 0) 1) 2) 3) :=
  VectorDirection.Inv_step sqrt t 3 _ (VectorDirection.Inv_step sqrt t 2 _
    (VectorDirection.Inv_step sqrt t 1 _ (VectorDirection.Inv_step sqrt t 0 _
      (VectorDirection.Inv_init sqrt t))))

/-- The classifier in terms of the normalised vector: either no dot product is positive
and the result is `-1`, or the result is the first index with the greatest dot product. -/
theorem VectorDirection_argmax (sqrt : K → K) (t : Vec2 K) :
    (VectorDirection sqrt t = -1 ∧
        ∀ j : Nat, j < 4 → Vec2.dot (Vec2.normalize sqrt t) (compass j) ≤ 0) ∨
      ∃ i : Nat, i < 4 ∧ VectorDirection sqrt t = (i : Int) ∧
        0 < Vec2.dot (Vec2.normalize sqrt t) (compass i) ∧
        (∀ j : Nat, j < 4 → Vec2.dot (Vec2.normalize sqrt t) (compass j) ≤
          Vec2.dot (Vec2.normalize sqrt t) (compass i)) ∧
        (∀ j : Nat, j < i → Vec2.dot (Vec2.normalize sqrt t) (compass j) <
          Vec2.dot (Vec2.normalize sqrt t) (compass i)) := by
  rw [VectorDirection_unfold]
  rcases VectorDirection.Inv_final sqrt t with ⟨h2, _, hall⟩ | ⟨i, hik, h2, _, hpos, hall, hfirst⟩
  · exact Or.inl ⟨h2, hall⟩
  · exact Or.inr ⟨i, hik, h2, hpos, hall, hfirst⟩

/-- The real square root is exact on non-negative arguments. -/
theorem isSqrt_real : IsSqrt Real.sqrt :=
  fun a ha => ⟨Real.sqrt_nonneg a, Real.mul_self_sqrt ha⟩

theorem Vec2.normalize_x (sqrt : K → K) (v : Vec2 K) :
    (Vec2.normalize sqrt v).x = v.x * (1 / sqrt (Vec2.dot v v)) := rfl

theorem Vec2.normalize_y (sqrt : K → K) (v : Vec2 K) :
    (Vec2.normalize sqrt v).y = v.y * (1 / sqrt (Vec2.dot v v)) := rfl

theorem Vec2.inv_length_nonneg {sqrt : K → K} (hs : IsSqrt sqrt) (v : Vec2 K) :
    0 ≤ 1 / sqrt (Vec2.dot v v) :=
  div_nonneg zero_le_one (hs.nonneg (Vec2.dot_self_nonneg v))

theorem Vec2.eq_zero_of_dot_self (v : Vec2 K) (h : Vec2.dot v v = 0) : v.x = 0 ∧ v.y = 0 := by
  unfold Vec2.dot at h
  constructor
  · nlinarith [mul_self_nonneg v.x, mul_self_nonneg v.y, mul_self_eq_zero (a := v.x)]
  · nlinarith [mul_self_nonneg v.x, mul_self_nonneg v.y, mul_self_eq_zero (a := v.y)]

/-- The length of a non-zero vector is positive. -/
theorem Vec2.length_pos {sqrt : K → K} (hs : IsSqrt sqrt) (v : Vec2 K)
    (hv : v.x ≠ 0 ∨ v.y ≠ 0) : 0 < sqrt (Vec2.dot v v) := by
  have h0 := hs.nonneg (Vec2.dot_self_nonneg v)
  have h1 := hs.mul_self (Vec2.dot_self_nonneg v)
  rcases lt_or_eq_of_le h0 with h | h
  · exact h
  · exfalso
    rw [← h] at h1
    have h2 := Vec2.eq_zero_of_dot_self v (by linarith)
    rcases hv with hv | hv
    · exact hv h2.1
    · exact hv h2.2

theorem Vec2.normalize_zero (sqrt : K → K) :
    Vec2.normalize sqrt (⟨0, 0⟩ : Vec2 K) = ⟨0, 0⟩ := by
  simp [Vec2.normalize, Vec2.scale]

/-- Sign of a component of the normalised vector. -/
theorem pos_of_scaled_pos {a c : K} (hc : 0 ≤ c) (h : 0 < a * c) : 0 < a := by
  by_contra hn
  push_neg at hn
  have := mul_nonpos_of_nonpos_of_nonneg hn hc
  linarith

theorem neg_of_scaled_neg {a c : K} (hc : 0 ≤ c) (h : a * c < 0) : a < 0 := by
  by_contra hn
  push_neg at hn
  have := mul_nonneg hn hc
  linarith

/-- What the classifier returns, by the signs of the input: `-1` for the zero vector
only, and otherwise a direction on whose axis the input has the matching sign. -/
theorem VectorDirection_sign {sqrt : K → K} (hs : IsSqrt sqrt) (v : Vec2 K) :
    (VectorDirection sqrt v = -1 ∧ v.x = 0 ∧ v.y = 0) ∨
      (VectorDirection sqrt v = UP ∧ 0 < v.y) ∨
      (VectorDirection sqrt v = RIGHT ∧ 0 < v.x) ∨
      (VectorDirection sqrt v = DOWN ∧ v.y < 0) ∨
      (VectorDirection sqrt v = LEFT ∧ v.x < 0) := by
  have hc := Vec2.inv_length_nonneg hs v
  rcases VectorDirection_argmax sqrt v with ⟨h, hall⟩ | ⟨i, hi, h, hpos, _, _⟩
  · left
    refine ⟨h, ?_⟩
    have a0 := hall 0 (by norm_num)
    have a1 := hall 1 (by norm_num)
    have a2 := hall 2 (by norm_num)
    have a3 := hall 3 (by norm_num)
    rw [dot_compass_zero] at a0
    rw [dot_compass_one] at a1
    rw [dot_compass_two] at a2
    rw [dot_compass_three] at a3
    have hx : (Vec2.normalize sqrt v).x = 0 := by linarith
    have hy : (Vec2.normalize sqrt v).y = 0 := by linarith
    by_contra hne
    have hv : v.x ≠ 0 ∨ v.y ≠ 0 := by
      by_contra hh
      push_neg at hh
      exact hne hh
    have hl := Vec2.length_pos hs v hv
    have hl2 : (0 : K) < 1 / sqrt (Vec2.dot v v) := by positivity
    rw [Vec2.normalize_x] at hx
    rw [Vec2.normalize_y] at hy
    rcases hv with hv | hv
    · rcases mul_eq_zero.1 hx with e | e
      · exact hv e
      · linarith
    · rcases mul_eq_zero.1 hy with e | e
      · exact hv e
      · linarith
  · right
    interval_cases i
    · left
      rw [dot_compass_zero, Vec2.normalize_y] at hpos
      exact ⟨h, pos_of_scaled_pos hc hpos⟩
    · right; left
      rw [dot_compass_one, Vec2.normalize_x] at hpos
      exact ⟨h, pos_of_scaled_pos hc hpos⟩
    · right; right; left
      rw [dot_compass_two, Vec2.normalize_y] at hpos
      exact ⟨h, neg_of_scaled_neg hc (by linarith)⟩
    · right; right; right
      rw [dot_compass_three, Vec2.normalize_x] at hpos
      exact ⟨h, neg_of_scaled_neg hc (by linarith)⟩

/-- For the zero vector no dot product is positive and the classifier returns `-1`. -/
theorem VectorDirection_zero (sqrt : K → K) :
    VectorDirection sqrt (⟨0, 0⟩ : Vec2 K) = -1 := by
  rw [VectorDirection_unfold]
  simp [VectorDirection.body, Vec2.normalize_zero, Vec2.dot]

/-- For a non-zero vector the classifier returns the first index with the greatest dot
product. -/
theorem VectorDirection_first_argmax {sqrt : K → K} (hs : IsSqrt sqrt) (v : Vec2 K)
    (hv : v ≠ ⟨0, 0⟩) :
    ∃ i : Nat, i < 4 ∧ VectorDirection sqrt v = (i : Int) ∧
      (∀ j : Nat, j < 4 → Vec2.dot (Vec2.normalize sqrt v) (compass j) ≤
        Vec2.dot (Vec2.normalize sqrt v) (compass i)) ∧
      (∀ j : Nat, j < i → Vec2.dot (Vec2.normalize sqrt v) (compass j) <
        Vec2.dot (Vec2.normalize sqrt v) (compass i)) := by
  rcases VectorDirection_argmax sqrt v with ⟨h, _⟩ | ⟨i, hi, h, _, hall, hfirst⟩
  · exfalso
    rcases VectorDirection_sign hs v with ⟨_, hx, hy⟩ | ⟨h1, _⟩ | ⟨h1, _⟩ | ⟨h1, _⟩ | ⟨h1, _⟩
    · exact hv (Vec2.ext hx hy)
    all_goals rw [h] at h1; revert h1; decide
  · exact ⟨i, hi, h, hall, hfirst⟩

end Classifier

/-! ## C5 -/

/-- C5: for every non-zero vector `v`, `VectorDirection v` is the index `i` of a compass
direction (0 Up = (0,1), 1 Right = (1,0), 2 Down = (0,-1), 3 Left = (-1,0)) whose dot
product with the normalised `v` is greatest, and it is the first such index in the order
Up, Right, Down, Left: every earlier direction has a strictly smaller dot product. -/
theorem vectorDirection_is_first_greatest_dot (sqrt : K → K) (hs : IsSqrt sqrt) (v : Vec2 K)
    (hv : v ≠ ⟨0, 0⟩) :
    (compass 0 = (⟨0, 1⟩ : Vec2 K) ∧ compass 1 = (⟨1, 0⟩ : Vec2 K) ∧
        compass 2 = (⟨0, -1⟩ : Vec2 K) ∧ compass 3 = (⟨-1, 0⟩ : Vec2 K)) ∧
      (UP = 0 ∧ RIGHT = 1 ∧ DOWN = 2 ∧ LEFT = 3) ∧
      ∃ i : Nat, i < 4 ∧ VectorDirection sqrt v = (i : Int) ∧
        (∀ j : Nat, j < 4 → Vec2.dot (Vec2.normalize sqrt v) (compass j) ≤
          Vec2.dot (Vec2.normalize sqrt v) (compass i)) ∧
        (∀ j : Nat, j < i → Vec2.dot (Vec2.normalize sqrt v) (compass j) <
          Vec2.dot (Vec2.normalize sqrt v) (compass i)) :=
  ⟨⟨rfl, rfl, rfl, rfl⟩, ⟨rfl, rfl, rfl, rfl⟩, VectorDirection_first_argmax hs v hv⟩

/-- Witness of C5 at the vector (0,5). -/
theorem vectorDirection_is_first_greatest_dot_witness :
    (compass 0 = (⟨0, 1⟩ : Vec2 ℝ) ∧ compass 1 = (⟨1, 0⟩ : Vec2 ℝ) ∧
        compass 2 = (⟨0, -1⟩ : Vec2 ℝ) ∧ compass 3 = (⟨-1, 0⟩ : Vec2 ℝ)) ∧
      (UP = 0 ∧ RIGHT = 1 ∧ DOWN = 2 ∧ LEFT = 3) ∧
      ∃ i : Nat, i < 4 ∧ VectorDirection Real.sqrt (⟨0, 5⟩ : Vec2 ℝ) = (i : Int) ∧
        (∀ j : Nat, j < 4 → Vec2.dot (Vec2.normalize Real.sqrt (⟨0, 5⟩ : Vec2 ℝ)) (compass j) ≤
          Vec2.dot (Vec2.normalize Real.sqrt (⟨0, 5⟩ : Vec2 ℝ)) (compass i)) ∧
        (∀ j : Nat, j < i → Vec2.dot (Vec2.normalize Real.sqrt (⟨0, 5⟩ : Vec2 ℝ)) (compass j) <
          Vec2.dot (Vec2.normalize Real.sqrt (⟨0, 5⟩ : Vec2 ℝ)) (compass i)) :=
  vectorDirection_is_first_greatest_dot Real.sqrt isSqrt_real ⟨0, 5⟩
    (fun h => by have h5 := congrArg Vec2.y h; norm_num at h5)

/-- Witness of C1 at the ball and the brick of the spec's scenario. -/
theorem checkCollision_contact_iff_box_meets_disc_witness :
    ((CheckCollision Real.sqrt (scenarioBall : BallObject ℝ) scenarioBrick).1 = true ↔
        ∃ q : Vec2 ℝ, inClosedBox scenarioBrick q ∧
          Vec2.length Real.sqrt (q - circleCentre scenarioBall) ≤
            (scenarioBall : BallObject ℝ).Radius) ∧
      ((CheckCollision Real.sqrt (scenarioBall : BallObject ℝ) scenarioBrick).1 = true →
        (CheckCollision Real.sqrt (scenarioBall : BallObject ℝ) scenarioBrick).2.2 =
          closestPoint scenarioBall scenarioBrick - circleCentre scenarioBall) :=
  checkCollision_contact_iff_box_meets_disc Real.sqrt isSqrt_real scenarioBall scenarioBrick
    (by norm_num [scenarioBall]) (by norm_num [scenarioBrick]) (by norm_num [scenarioBrick])

/-! ## The circle centre inside the box -/

section Inside

theorem clamp_axis_inside (p s c : K) (h1 : p ≤ c) (h2 : c ≤ p + s) :
    p + s / 2 + min (max (c - (p + s / 2)) (-(s / 2))) (s / 2) = c := by
  rw [max_eq_left (by linarith), min_eq_left (by linarith)]
  ring

/-- A centre inside the closed box is its own closest point. -/
theorem closestPoint_of_mem (one : BallObject K) (two : GameObject K)
    (h : inClosedBox two (circleCentre one)) : closestPoint one two = circleCentre one := by
  obtain ⟨h1, h2, h3, h4⟩ := h
  apply Vec2.ext
  · rw [closestPoint_x]
    exact clamp_axis_inside _ _ _ h1 h2
  · rw [closestPoint_y]
    exact clamp_axis_inside _ _ _ h3 h4

theorem Vec2.sub_self_eq (v : Vec2 K) : v - v = ⟨0, 0⟩ := by
  apply Vec2.ext <;> simp

theorem IsSqrt.zero {sqrt : K → K} (hs : IsSqrt sqrt) : sqrt 0 = 0 := by
  have h := hs.mul_self (le_refl (0 : K))
  exact mul_self_eq_zero.1 h

theorem Vec2.length_zero {sqrt : K → K} (hs : IsSqrt sqrt) :
    Vec2.length sqrt (⟨0, 0⟩ : Vec2 K) = 0 := by
  unfold Vec2.length Vec2.dot
  simp [hs.zero]

/-- With the circle centre inside the closed box the detector reports contact with the
zero vector, which the classifier maps to `-1`. -/
theorem CheckCollision_of_centre_mem {sqrt : K → K} (hs : IsSqrt sqrt) (one : BallObject K)
    (two : GameObject K) (hr : 0 ≤ one.Radius) (h : inClosedBox two (circleCentre one)) :
    CheckCollision sqrt one two = (true, -1, ⟨0, 0⟩) := by
  rw [CheckCollision_eq, closestPoint_of_mem one two h, Vec2.sub_self_eq,
    Vec2.length_zero hs, if_pos hr, VectorDirection_zero]

/-- A zero contact vector puts the circle centre inside the closed box. -/
theorem centre_mem_of_vector_zero (one : BallObject K) (two : GameObject K)
    (hx : 0 ≤ two.Size.x) (hy : 0 ≤ two.Size.y)
    (h : closestPoint one two - circleCentre one = ⟨0, 0⟩) :
    inClosedBox two (circleCentre one) := by
  have e : circleCentre one = closestPoint one two := by
    apply Vec2.ext
    · have := congrArg Vec2.x h
      simp only [Vec2.sub_x] at this
      linarith
    · have := congrArg Vec2.y h
      simp only [Vec2.sub_y] at this
      linarith
  rw [e]
  exact closestPoint_mem one two hx hy

/-- Outside the closed box the contact vector is non-zero. -/
theorem contact_vector_ne_zero_of_outside {sqrt : K → K} (one : BallObject K)
    (two : GameObject K) (hx : 0 ≤ two.Size.x) (hy : 0 ≤ two.Size.y)
    (hc : (CheckCollision sqrt one two).1 = true)
    (hout : ¬inClosedBox two (circleCentre one)) :
    (CheckCollision sqrt one two).2.2 ≠ ⟨0, 0⟩ := by
  rw [CheckCollision_vector sqrt one two hc]
  exact fun h => hout (centre_mem_of_vector_zero one two hx hy h)

theorem scenario_centre_mem :
    inClosedBox (scenarioBrick : GameObject ℝ) (circleCentre scenarioBall) := by
  norm_num [inClosedBox, scenarioBrick, scenarioBall, circleCentre]

theorem scenario_collision :
    CheckCollision Real.sqrt (scenarioBall : BallObject ℝ) scenarioBrick =
      (true, -1, ⟨0, 0⟩) :=
  CheckCollision_of_centre_mem isSqrt_real scenarioBall scenarioBrick
    (by norm_num [scenarioBall]) scenario_centre_mem

end Inside

/-! ## C6 -/

/-- C6, as stated, fails for the ball at (50,50) of radius 10 and the brick at (40,55) of
size (30,10): contact is reported, yet the vector handed to the classifier is zero and
the direction is `-1`. -/
theorem contact_direction_valid_counterexample :
    ¬((CheckCollision Real.sqrt (scenarioBall : BallObject ℝ) scenarioBrick).1 = true →
      (CheckCollision Real.sqrt (scenarioBall : BallObject ℝ) scenarioBrick).2.2 ≠ ⟨0, 0⟩ ∧
        ((CheckCollision Real.sqrt (scenarioBall : BallObject ℝ) scenarioBrick).2.1 = UP ∨
          (CheckCollision Real.sqrt (scenarioBall : BallObject ℝ) scenarioBrick).2.1 = RIGHT ∨
          (CheckCollision Real.sqrt (scenarioBall : BallObject ℝ) scenarioBrick).2.1 = DOWN ∨
          (CheckCollision Real.sqrt (scenarioBall : BallObject ℝ) scenarioBrick).2.1 = LEFT)) := by
  rw [scenario_collision]
  intro h
  exact (h rfl).1 rfl

/-- C6, amended: for radius `≥ 0` and a box of non-negative size, when contact is reported
and the circle centre lies outside the closed box, the vector handed to the classifier is
non-zero and the direction is one of Up, Right, Down, Left; when the circle centre lies in
the closed box, contact is reported with the zero vector and the direction `-1`. -/
theorem contact_direction_valid_outside_box (sqrt : K → K) (hs : IsSqrt sqrt)
    (one : BallObject K) (two : GameObject K) (hr : 0 ≤ one.Radius)
    (hx : 0 ≤ two.Size.x) (hy : 0 ≤ two.Size.y) :
    ((CheckCollision sqrt one two).1 = true → ¬inClosedBox two (circleCentre one) →
        (CheckCollision sqrt one two).2.2 ≠ ⟨0, 0⟩ ∧
          ((CheckCollision sqrt one two).2.1 = UP ∨ (CheckCollision sqrt one two).2.1 = RIGHT ∨
            (CheckCollision sqrt one two).2.1 = DOWN ∨
            (CheckCollision sqrt one two).2.1 = LEFT)) ∧
      (inClosedBox two (circleCentre one) →
        CheckCollision sqrt one two = (true, -1, ⟨0, 0⟩)) := by
  refine ⟨?_, CheckCollision_of_centre_mem hs one two hr⟩
  intro hc hout
  rw [CheckCollision_vector sqrt one two hc, CheckCollision_direction sqrt one two hc]
  have hne : closestPoint one two - circleCentre one ≠ ⟨0, 0⟩ :=
    fun h => hout (centre_mem_of_vector_zero one two hx hy h)
  refine ⟨hne, ?_⟩
  rcases VectorDirection_sign hs (closestPoint one two - circleCentre one) with
    ⟨_, h1, h2⟩ | ⟨h, _⟩ | ⟨h, _⟩ | ⟨h, _⟩ | ⟨h, _⟩
  · exact absurd (Vec2.ext h1 h2) hne
  · exact Or.inl h
  · exact Or.inr (Or.inl h)
  · exact Or.inr (Or.inr (Or.inl h))
  · exact Or.inr (Or.inr (Or.inr h))

theorem aboveBall_contact :
    (CheckCollision Real.sqrt (aboveBall : BallObject ℝ) scenarioBrick).1 = true := by
  rw [CheckCollision_contact_iff, Vec2.length_le_iff isSqrt_real]
  norm_num [closestPoint_x, closestPoint_y, circleCentre, aboveBall, scenarioBrick,
    min_def, max_def]

theorem aboveBall_outside :
    ¬inClosedBox (scenarioBrick : GameObject ℝ) (circleCentre (aboveBall : BallObject ℝ)) := by
  norm_num [inClosedBox, circleCentre, aboveBall, scenarioBrick]

/-- Witness of the amended C6 at a ball above the brick of the scenario: contact, centre
outside the box, hence a non-zero vector and a proper direction. -/
theorem contact_direction_valid_outside_box_witness :
    (CheckCollision Real.sqrt (aboveBall : BallObject ℝ) scenarioBrick).2.2 ≠ ⟨0, 0⟩ ∧
      ((CheckCollision Real.sqrt (aboveBall : BallObject ℝ) scenarioBrick).2.1 = UP ∨
        (CheckCollision Real.sqrt (aboveBall : BallObject ℝ) scenarioBrick).2.1 = RIGHT ∨
        (CheckCollision Real.sqrt (aboveBall : BallObject ℝ) scenarioBrick).2.1 = DOWN ∨
        (CheckCollision Real.sqrt (aboveBall : BallObject ℝ) scenarioBrick).2.1 = LEFT) :=
  (contact_direction_valid_outside_box Real.sqrt isSqrt_real aboveBall scenarioBrick
    (by norm_num [aboveBall]) (by norm_num [scenarioBrick])
    (by norm_num [scenarioBrick])).1 aboveBall_contact aboveBall_outside

/-! ## C7 -/

/-- C7, as stated, fails: for the ball at (50,50) of radius 10 and the brick at (40,55)
of size (30,10) the detector does not return direction Up with a vector of zero x and
non-zero y component. -/
theorem scenario_brick_contact_up_counterexample :
    ¬((CheckCollision Real.sqrt (scenarioBall : BallObject ℝ) scenarioBrick).1 = true ∧
      (CheckCollision Real.sqrt (scenarioBall : BallObject ℝ) scenarioBrick).2.1 = UP ∧
      (CheckCollision Real.sqrt (scenarioBall : BallObject ℝ) scenarioBrick).2.2.x = 0 ∧
      (CheckCollision Real.sqrt (scenarioBall : BallObject ℝ) scenarioBrick).2.2.y ≠ 0) := by
  rw [scenario_collision]
  intro h
  exact h.2.2.2 rfl

/-- C7, amended: for the ball at (50,50) of radius 10 and the brick at (40,55) of size
(30,10) the circle centre (60,60) lies inside the brick, and the detector reports contact
with the zero vector and the direction `-1`. -/
theorem scenario_brick_contact_inside :
    circleCentre (scenarioBall : BallObject ℝ) = ⟨60, 60⟩ ∧
      inClosedBox (scenarioBrick : GameObject ℝ) (circleCentre scenarioBall) ∧
      CheckCollision Real.sqrt (scenarioBall : BallObject ℝ) scenarioBrick =
        (true, -1, ⟨0, 0⟩) := by
  refine ⟨?_, scenario_centre_mem, scenario_collision⟩
  apply Vec2.ext <;> norm_num [circleCentre, scenarioBall]

/-! ## The brick step -/

section BrickStep

/-- The component of the contact vector along an axis is at most the radius. -/
theorem abs_x_le_of_contact {sqrt : K → K} (hs : IsSqrt sqrt) (v : Vec2 K) (r : K)
    (h : Vec2.length sqrt v ≤ r) : |v.x| ≤ r ∧ |v.y| ≤ r := by
  obtain ⟨hr, hq⟩ := (Vec2.length_le_iff hs v r).1 h
  constructor
  · apply abs_le.2
    constructor <;> nlinarith [mul_self_nonneg v.y, mul_self_nonneg v.x]
  · apply abs_le.2
    constructor <;> nlinarith [mul_self_nonneg v.y, mul_self_nonneg v.x]

/-- Moving the centre further away on the side where the contact vector is positive
does not change the clamped offset. -/
theorem clamp_shift_down (t h e : K) (hd : 0 < min (max t (-h)) h - t) (he : 0 ≤ e) :
    min (max (t - e) (-h)) h = min (max t (-h)) h := by
  have h1 : t < -h := by
    by_contra hn
    push_neg at hn
    rw [max_eq_left hn] at hd
    have := min_le_left t h
    linarith
  rw [max_eq_right (le_of_lt h1), max_eq_right (by linarith)]

/-- Moving the centre further away on the side where the contact vector is negative
does not change the clamped offset. -/
theorem clamp_shift_up (t h e : K) (hd : min (max t (-h)) h - t < 0) (he : 0 ≤ e) :
    min (max (t + e) (-h)) h = min (max t (-h)) h := by
  have h1 : h < t := by
    by_contra hn
    push_neg at hn
    have : t ≤ min (max t (-h)) h := le_min (le_max_left _ _) hn
    linarith
  rw [min_eq_right (le_trans (le_of_lt h1) (le_max_left t (-h))),
    min_eq_right (le_trans (by linarith) (le_max_left (t + e) (-h)))]

/-- Pushing the centre away from the box by `r - d` on an axis where the contact vector
`d` is positive makes the recomputed vector equal to `r`. -/
theorem axis_resolve_pos (p s c r d : K)
    (hdef : d = p + s / 2 + min (max (c - (p + s / 2)) (-(s / 2))) (s / 2) - c)
    (hd : 0 < d) (hr : d ≤ r) :
    p + s / 2 + min (max (c - (r - d) - (p + s / 2)) (-(s / 2))) (s / 2) - (c - (r - d)) =
      r := by
  have e1 : c - (r - d) - (p + s / 2) = c - (p + s / 2) - (r - d) := by ring
  rw [e1, clamp_shift_down (c - (p + s / 2)) (s / 2) (r - d) (by linarith) (by linarith)]
  linarith

/-- Pushing the centre away from the box by `r + d` on an axis where the contact vector
`d` is negative makes the recomputed vector equal to `-r`. -/
theorem axis_resolve_neg (p s c r d : K)
    (hdef : d = p + s / 2 + min (max (c - (p + s / 2)) (-(s / 2))) (s / 2) - c)
    (hd : d < 0) (hr : -r ≤ d) :
    p + s / 2 + min (max (c + (r + d) - (p + s / 2)) (-(s / 2))) (s / 2) - (c + (r + d)) =
      -r := by
  have e1 : c + (r + d) - (p + s / 2) = c - (p + s / 2) + (r + d) := by ring
  rw [e1, clamp_shift_up (c - (p + s / 2)) (s / 2) (r + d) (by linarith) (by linarith)]
  linarith

/-- The ball after the brick step, contact with a live brick, direction Left. -/
theorem brick_ball_left (sqrt : K → K) (ball : BallObject K) (box : GameObject K)
    (hnd : box.Destroyed = false) (hc : (CheckCollision sqrt ball box).1 = true)
    (hd : (CheckCollision sqrt ball box).2.1 = LEFT) :
    (DoCollisions.brick sqrt ball box).1 =
      { ball with
        Velocity := ⟨-ball.Velocity.x, ball.Velocity.y⟩
        Position := ⟨ball.Position.x +
          (ball.Radius - |(CheckCollision sqrt ball box).2.2.x|), ball.Position.y⟩ } := by
  simp [DoCollisions.brick, hnd, hc, hd]

/-- The ball after the brick step, contact with a live brick, direction Right. -/
theorem brick_ball_right (sqrt : K → K) (ball : BallObject K) (box : GameObject K)
    (hnd : box.Destroyed = false) (hc : (CheckCollision sqrt ball box).1 = true)
    (hd : (CheckCollision sqrt ball box).2.1 = RIGHT) :
    (DoCollisions.brick sqrt ball box).1 =
      { ball with
        Velocity := ⟨-ball.Velocity.x, ball.Velocity.y⟩
        Position := ⟨ball.Position.x -
          (ball.Radius - |(CheckCollision sqrt ball box).2.2.x|), ball.Position.y⟩ } := by
  simp [DoCollisions.brick, hnd, hc, hd, LEFT, RIGHT]

/-- The ball after the brick step, contact with a live brick, direction Up. -/
theorem brick_ball_up (sqrt : K → K) (ball : BallObject K) (box : GameObject K)
    (hnd : box.Destroyed = false) (hc : (CheckCollision sqrt ball box).1 = true)
    (hd : (CheckCollision sqrt ball box).2.1 = UP) :
    (DoCollisions.brick sqrt ball box).1 =
      { ball with
        Velocity := ⟨ball.Velocity.x, -ball.Velocity.y⟩
        Position := ⟨ball.Position.x,
          ball.Position.y - (ball.Radius - |(CheckCollision sqrt ball box).2.2.y|)⟩ } := by
  simp [DoCollisions.brick, hnd, hc, hd, LEFT, RIGHT, UP]

/-- The ball after the brick step, contact with a live brick, any direction other than
Left, Right and Up. -/
theorem brick_ball_other (sqrt : K → K) (ball : BallObject K) (box : GameObject K)
    (hnd : box.Destroyed = false) (hc : (CheckCollision sqrt ball box).1 = true)
    (h1 : (CheckCollision sqrt ball box).2.1 ≠ LEFT)
    (h2 : (CheckCollision sqrt ball box).2.1 ≠ RIGHT)
    (h3 : (CheckCollision sqrt ball box).2.1 ≠ UP) :
    (DoCollisions.brick sqrt ball box).1 =
      { ball with
        Velocity := ⟨ball.Velocity.x, -ball.Velocity.y⟩
        Position := ⟨ball.Position.x,
          ball.Position.y + (ball.Radius - |(CheckCollision sqrt ball box).2.2.y|)⟩ } := by
  simp [DoCollisions.brick, hnd, hc, h1, h2, h3]

/-- The brick after the brick step: destroyed on contact. -/
theorem brick_box_of_contact (sqrt : K → K) (ball : BallObject K) (box : GameObject K)
    (hnd : box.Destroyed = false) (hc : (CheckCollision sqrt ball box).1 = true) :
    (DoCollisions.brick sqrt ball box).2 = { box with Destroyed := true } := by
  simp only [DoCollisions.brick, hnd, hc]
  split_ifs <;> simp_all

/-- The contact vector recomputed on the y axis after the ball was pushed away from
the box, contact vector positive on that axis. -/
theorem recomputed_y_pos (ball ball' : BallObject K) (box : GameObject K)
    (hR : ball'.Radius = ball.Radius)
    (hP : ball'.Position.y = ball.Position.y - (ball.Radius - (closestPoint ball box - circleCentre ball).y))
    (hd : 0 < (closestPoint ball box - circleCentre ball).y)
    (hr : (closestPoint ball box - circleCentre ball).y ≤ ball.Radius) :
    (closestPoint ball' box - circleCentre ball').y = ball.Radius := by
  have key := axis_resolve_pos box.Position.y box.Size.y (ball.Position.y + ball.Radius)
    ball.Radius (closestPoint ball box - circleCentre ball).y rfl hd hr
  have e : ball.Position.y - (ball.Radius - (closestPoint ball box - circleCentre ball).y) + ball.Radius =
      ball.Position.y + ball.Radius - (ball.Radius - (closestPoint ball box - circleCentre ball).y) := by ring
  show box.Position.y + box.Size.y / 2 +
      min (max (ball'.Position.y + ball'.Radius - (box.Position.y + box.Size.y / 2))
        (-(box.Size.y / 2))) (box.Size.y / 2) -
      (ball'.Position.y + ball'.Radius) = ball.Radius
  rw [hR, hP, e]
  exact key

/-- The contact vector recomputed on the y axis after the ball was pushed away from
the box, contact vector negative on that axis. -/
theorem recomputed_y_neg (ball ball' : BallObject K) (box : GameObject K)
    (hR : ball'.Radius = ball.Radius)
    (hP : ball'.Position.y = ball.Position.y + (ball.Radius + (closestPoint ball box - circleCentre ball).y))
    (hd : (closestPoint ball box - circleCentre ball).y < 0)
    (hr : -ball.Radius ≤ (closestPoint ball box - circleCentre ball).y) :
    (closestPoint ball' box - circleCentre ball').y = -ball.Radius := by
  have key := axis_resolve_neg box.Position.y box.Size.y (ball.Position.y + ball.Radius)
    ball.Radius (closestPoint ball box - circleCentre ball).y rfl hd hr
  have e : ball.Position.y + (ball.Radius + (closestPoint ball box - circleCentre ball).y) + ball.Radius =
      ball.Position.y + ball.Radius + (ball.Radius + (closestPoint ball box - circleCentre ball).y) := by ring
  show box.Position.y + box.Size.y / 2 +
      min (max (ball'.Position.y + ball'.Radius - (box.Position.y + box.Size.y / 2))
        (-(box.Size.y / 2))) (box.Size.y / 2) -
      (ball'.Position.y + ball'.Radius) = -ball.Radius
  rw [hR, hP, e]
  exact key

/-- The contact vector recomputed on the x axis after the ball was pushed away from
the box, contact vector positive on that axis. -/
theorem recomputed_x_pos (ball ball' : BallObject K) (box : GameObject K)
    (hR : ball'.Radius = ball.Radius)
    (hP : ball'.Position.x = ball.Position.x - (ball.Radius - (closestPoint ball box - circleCentre ball).x))
    (hd : 0 < (closestPoint ball box - circleCentre ball).x)
    (hr : (closestPoint ball box - circleCentre ball).x ≤ ball.Radius) :
    (closestPoint ball' box - circleCentre ball').x = ball.Radius := by
  have key := axis_resolve_pos box.Position.x box.Size.x (ball.Position.x + ball.Radius)
    ball.Radius (closestPoint ball box - circleCentre ball).x rfl hd hr
  have e : ball.Position.x - (ball.Radius - (closestPoint ball box - circleCentre ball).x) + ball.Radius =
      ball.Position.x + ball.Radius - (ball.Radius - (closestPoint ball box - circleCentre ball).x) := by ring
  show box.Position.x + box.Size.x / 2 +
      min (max (ball'.Position.x + ball'.Radius - (box.Position.x + box.Size.x / 2))
        (-(box.Size.x / 2))) (box.Size.x / 2) -
      (ball'.Position.x + ball'.Radius) = ball.Radius
  rw [hR, hP, e]
  exact key

/-- The contact vector recomputed on the x axis after the ball was pushed away from
the box, contact vector negative on that axis. -/
theorem recomputed_x_neg (ball ball' : BallObject K) (box : GameObject K)
    (hR : ball'.Radius = ball.Radius)
    (hP : ball'.Position.x = ball.Position.x + (ball.Radius + (closestPoint ball box - circleCentre ball).x))
    (hd : (closestPoint ball box - circleCentre ball).x < 0)
    (hr : -ball.Radius ≤ (closestPoint ball box - circleCentre ball).x) :
    (closestPoint ball' box - circleCentre ball').x = -ball.Radius := by
  have key := axis_resolve_neg box.Position.x box.Size.x (ball.Position.x + ball.Radius)
    ball.Radius (closestPoint ball box - circleCentre ball).x rfl hd hr
  have e : ball.Position.x + (ball.Radius + (closestPoint ball box - circleCentre ball).x) + ball.Radius =
      ball.Position.x + ball.Radius + (ball.Radius + (closestPoint ball box - circleCentre ball).x) := by ring
  show box.Position.x + box.Size.x / 2 +
      min (max (ball'.Position.x + ball'.Radius - (box.Position.x + box.Size.x / 2))
        (-(box.Size.x / 2))) (box.Size.x / 2) -
      (ball'.Position.x + ball'.Radius) = -ball.Radius
  rw [hR, hP, e]
  exact key

end BrickStep

/-! ## C2 -/

/-- C2, as stated, fails for the ball at (50,50) of radius 10 and the live brick at
(40,55) of size (30,10): contact is reported, the contact is resolved vertically (the
direction is neither Left nor Right), and after the brick step the radius minus the
absolute y component of the recomputed closest-point vector is positive. -/
theorem brick_resolution_clears_axis_counterexample :
    (scenarioBrick : GameObject ℝ).Destroyed = false ∧
      (CheckCollision Real.sqrt (scenarioBall : BallObject ℝ) scenarioBrick).1 = true ∧
      ¬((CheckCollision Real.sqrt (scenarioBall : BallObject ℝ) scenarioBrick).2.1 = LEFT ∨
        (CheckCollision Real.sqrt (scenarioBall : BallObject ℝ) scenarioBrick).2.1 = RIGHT) ∧
      ¬((DoCollisions.brick Real.sqrt (scenarioBall : BallObject ℝ) scenarioBrick).1.Radius -
        |(closestPoint (DoCollisions.brick Real.sqrt (scenarioBall : BallObject ℝ)
            scenarioBrick).1 scenarioBrick -
          circleCentre (DoCollisions.brick Real.sqrt (scenarioBall : BallObject ℝ)
            scenarioBrick).1).y| ≤ 0) := by
  have hc : (CheckCollision Real.sqrt (scenarioBall : BallObject ℝ) scenarioBrick).1 = true := by
    rw [scenario_collision]
  have hb := brick_ball_other Real.sqrt (scenarioBall : BallObject ℝ) scenarioBrick rfl hc
    (by rw [scenario_collision]; decide) (by rw [scenario_collision]; decide)
    (by rw [scenario_collision]; decide)
  refine ⟨rfl, hc, ?_, ?_⟩
  · rw [scenario_collision]
    decide
  · rw [hb, scenario_collision]
    norm_num [closestPoint_y, circleCentre, scenarioBall, scenarioBrick, min_def, max_def]

/-- C2, amended: for every ball and every non-destroyed brick for which the detector
reports contact with a non-zero vector (the circle centre is not inside the brick), after
the brick step has moved the ball the penetration depth along the resolved axis is `≤ 0`:
for the closest-point vector recomputed between the corrected ball and the same brick,
radius minus the absolute x component is `≤ 0` when the direction was Left or Right, and
radius minus the absolute y component is `≤ 0` otherwise. -/
theorem brick_resolution_clears_axis (sqrt : K → K) (hs : IsSqrt sqrt) (ball : BallObject K)
    (box : GameObject K) (hnd : box.Destroyed = false)
    (hc : (CheckCollision sqrt ball box).1 = true)
    (hv : (CheckCollision sqrt ball box).2.2 ≠ ⟨0, 0⟩) :
    (((CheckCollision sqrt ball box).2.1 = LEFT ∨ (CheckCollision sqrt ball box).2.1 = RIGHT) →
        (DoCollisions.brick sqrt ball box).1.Radius -
          |(closestPoint (DoCollisions.brick sqrt ball box).1 box -
            circleCentre (DoCollisions.brick sqrt ball box).1).x| ≤ 0) ∧
      (¬((CheckCollision sqrt ball box).2.1 = LEFT ∨
          (CheckCollision sqrt ball box).2.1 = RIGHT) →
        (DoCollisions.brick sqrt ball box).1.Radius -
          |(closestPoint (DoCollisions.brick sqrt ball box).1 box -
            circleCentre (DoCollisions.brick sqrt ball box).1).y| ≤ 0) := by
  have hvec := CheckCollision_vector sqrt ball box hc
  have hdir := CheckCollision_direction sqrt ball box hc
  have hlen := (CheckCollision_contact_iff sqrt ball box).1 hc
  obtain ⟨hax, hay⟩ := abs_x_le_of_contact hs _ _ hlen
  have hr0 : 0 ≤ ball.Radius := le_trans (abs_nonneg _) hax
  rw [hvec] at hv
  rcases VectorDirection_sign hs (closestPoint ball box - circleCentre ball) with
    ⟨_, h1, h2⟩ | ⟨h, hpos⟩ | ⟨h, hpos⟩ | ⟨h, hneg⟩ | ⟨h, hneg⟩
  · exact absurd (Vec2.ext h1 h2) hv
  · -- Up
    rw [← hdir] at h
    have hb := brick_ball_up sqrt ball box hnd hc h
    rw [hvec, abs_of_pos hpos] at hb
    constructor
    · intro hh
      rw [h] at hh
      exact absurd hh (by decide)
    · intro _
      have key := recomputed_y_pos ball (DoCollisions.brick sqrt ball box).1 box
        (by rw [hb]) (by rw [hb]) hpos (le_trans (le_abs_self _) hay)
      rw [key, hb, abs_of_nonneg hr0]
      simp
  · -- Right
    rw [← hdir] at h
    have hb := brick_ball_right sqrt ball box hnd hc h
    rw [hvec, abs_of_pos hpos] at hb
    constructor
    · intro _
      have key := recomputed_x_pos ball (DoCollisions.brick sqrt ball box).1 box
        (by rw [hb]) (by rw [hb]) hpos (le_trans (le_abs_self _) hax)
      rw [key, hb, abs_of_nonneg hr0]
      simp
    · intro hh
      exact absurd (Or.inr h) hh
  · -- Down
    rw [← hdir] at h
    have hb := brick_ball_other sqrt ball box hnd hc (by rw [h]; decide) (by rw [h]; decide)
      (by rw [h]; decide)
    rw [hvec, abs_of_neg hneg, sub_neg_eq_add] at hb
    constructor
    · intro hh
      rw [h] at hh
      exact absurd hh (by decide)
    · intro _
      have key := recomputed_y_neg ball (DoCollisions.brick sqrt ball box).1 box
        (by rw [hb]) (by rw [hb]) hneg (neg_le_of_abs_le hay)
      rw [key, hb, abs_neg, abs_of_nonneg hr0]
      simp
  · -- Left
    rw [← hdir] at h
    have hb := brick_ball_left sqrt ball box hnd hc h
    rw [hvec, abs_of_neg hneg, sub_neg_eq_add] at hb
    constructor
    · intro _
      have key := recomputed_x_neg ball (DoCollisions.brick sqrt ball box).1 box
        (by rw [hb]) (by rw [hb]) hneg (neg_le_of_abs_le hax)
      rw [key, hb, abs_neg, abs_of_nonneg hr0]
      simp
    · intro hh
      exact absurd (Or.inl h) hh

/-- Witness of the amended C2 at a ball above the brick of the scenario. -/
theorem brick_resolution_clears_axis_witness :
    (((CheckCollision Real.sqrt (aboveBall : BallObject ℝ) scenarioBrick).2.1 = LEFT ∨
          (CheckCollision Real.sqrt (aboveBall : BallObject ℝ) scenarioBrick).2.1 = RIGHT) →
        (DoCollisions.brick Real.sqrt (aboveBall : BallObject ℝ) scenarioBrick).1.Radius -
          |(closestPoint (DoCollisions.brick Real.sqrt (aboveBall : BallObject ℝ)
              scenarioBrick).1 scenarioBrick -
            circleCentre (DoCollisions.brick Real.sqrt (aboveBall : BallObject ℝ)
              scenarioBrick).1).x| ≤ 0) ∧
      (¬((CheckCollision Real.sqrt (aboveBall : BallObject ℝ) scenarioBrick).2.1 = LEFT ∨
          (CheckCollision Real.sqrt (aboveBall : BallObject ℝ) scenarioBrick).2.1 = RIGHT) →
        (DoCollisions.brick Real.sqrt (aboveBall : BallObject ℝ) scenarioBrick).1.Radius -
          |(closestPoint (DoCollisions.brick Real.sqrt (aboveBall : BallObject ℝ)
              scenarioBrick).1 scenarioBrick -
            circleCentre (DoCollisions.brick Real.sqrt (aboveBall : BallObject ℝ)
              scenarioBrick).1).y| ≤ 0) :=
  brick_resolution_clears_axis Real.sqrt isSqrt_real aboveBall scenarioBrick rfl
    aboveBall_contact
    (contact_vector_ne_zero_of_outside aboveBall scenarioBrick
      (by norm_num [scenarioBrick]) (by norm_num [scenarioBrick]) aboveBall_contact
      aboveBall_outside)

/-! ## The paddle step -/

section PaddleStep

/-- Without contact the brick step changes nothing. -/
theorem brick_of_no_contact (sqrt : K → K) (ball : BallObject K) (box : GameObject K)
    (hc : (CheckCollision sqrt ball box).1 = false) :
    DoCollisions.brick sqrt ball box = (ball, box) := by
  simp [DoCollisions.brick, hc]

/-- The ball after the paddle step when the detector reports contact: the stuck flag is
not consulted. -/
theorem paddle_of_contact (sqrt : K → K) (toInt : K → Int) (v0 : Vec2 K)
    (ball : BallObject K) (player : GameObject K) (hc : (CheckCollision sqrt ball player).1 = true) :
    DoCollisions.paddle sqrt toInt v0 ball player =
      { ball with
        Velocity := Vec2.scale
          (Vec2.normalize sqrt
            ⟨v0.x * (((ball.Position.x + ball.Radius) -
                (player.Position.x + player.Size.x / 2)) / (player.Size.x / 2)) * 2,
              ((-1 * |toInt ball.Velocity.y| : Int) : K)⟩)
          (Vec2.length sqrt ball.Velocity) } := by
  simp [DoCollisions.paddle, hc]

/-- Without contact the paddle step changes nothing. -/
theorem paddle_of_no_contact (sqrt : K → K) (toInt : K → Int) (v0 : Vec2 K)
    (ball : BallObject K) (player : GameObject K) (hc : (CheckCollision sqrt ball player).1 = false) :
    DoCollisions.paddle sqrt toInt v0 ball player = ball := by
  simp [DoCollisions.paddle, hc]

end PaddleStep

/-! ## C3 -/

section StuckBall

theorem DoCollisions_Ball (sqrt : K → K) (toInt : K → Int) (v0 : Vec2 K) (g : Game K) :
    (DoCollisions sqrt toInt v0 g).Ball =
      DoCollisions.paddle sqrt toInt v0 (DoCollisions.bricks sqrt g.Ball g.activeBricks).1
        g.Player := rfl

theorem restingBall_cornerBrick :
    (CheckCollision Real.sqrt (restingBall : BallObject ℝ) cornerBrick).1 = false := by
  rw [Bool.eq_false_iff, ne_eq, CheckCollision_contact_iff, Vec2.length_le_iff isSqrt_real]
  norm_num [closestPoint_x, closestPoint_y, circleCentre, restingBall, cornerBrick,
    min_def, max_def]

theorem restingBall_startPaddle :
    (CheckCollision Real.sqrt (restingBall : BallObject ℝ) startPaddle).1 = true := by
  rw [CheckCollision_contact_iff, Vec2.length_le_iff isSqrt_real]
  norm_num [closestPoint_x, closestPoint_y, circleCentre, restingBall, startPaddle,
    min_def, max_def]

theorem stuckGame_bricks_ball :
    (DoCollisions.bricks Real.sqrt (stuckGame : Game ℝ).Ball stuckGame.activeBricks).1 =
      restingBall := by
  show (DoCollisions.brick Real.sqrt (restingBall : BallObject ℝ) cornerBrick).1 = restingBall
  rw [brick_of_no_contact Real.sqrt restingBall cornerBrick restingBall_cornerBrick]

end StuckBall

/-- C3, evaluated at a failing input: the ball is stuck, touches no live brick and rests on
the paddle with velocity (100,-350); `DoCollisions` nevertheless steers it, the horizontal
velocity becoming 0. -/
theorem stuck_ball_is_steered :
    (stuckGame : Game ℝ).Ball.Stuck = true ∧
      (∀ box ∈ (stuckGame : Game ℝ).activeBricks, box.Destroyed = false →
        (CheckCollision Real.sqrt (stuckGame : Game ℝ).Ball box).1 = false) ∧
      (CheckCollision Real.sqrt (stuckGame : Game ℝ).Ball stuckGame.Player).1 = true ∧
      (stuckGame : Game ℝ).Ball.Velocity.x = 100 ∧
      (DoCollisions Real.sqrt truncate ⟨100, -350⟩ (stuckGame : Game ℝ)).Ball.Velocity.x = 0 := by
  refine ⟨rfl, ?_, restingBall_startPaddle, rfl, ?_⟩
  · intro box hbox _
    have hb : box = cornerBrick := by
      have : box ∈ [(cornerBrick : GameObject ℝ)] := hbox
      simpa using this
    rw [hb]
    exact restingBall_cornerBrick
  · rw [DoCollisions_Ball, stuckGame_bricks_ball]
    rw [show (stuckGame : Game ℝ).Player = startPaddle from rfl,
      paddle_of_contact Real.sqrt _ _ restingBall startPaddle restingBall_startPaddle]
    norm_num [Vec2.scale, Vec2.normalize, restingBall, startPaddle]

/-! ## C4 -/

section SlowBall

end SlowBall

section Paddle

theorem ProcessInput.left_frame (v : K) (g : Game K) :
    (ProcessInput.left v g).Width = g.Width ∧
      (ProcessInput.left v g).Player.Size = g.Player.Size := by
  unfold ProcessInput.left
  split_ifs <;> exact ⟨rfl, rfl⟩

theorem ProcessInput.right_frame (v : K) (g : Game K) :
    (ProcessInput.right v g).Width = g.Width ∧
      (ProcessInput.right v g).Player.Size = g.Player.Size := by
  unfold ProcessInput.right
  split_ifs <;> exact ⟨rfl, rfl⟩

theorem ProcessInput.space_frame (g : Game K) :
    (ProcessInput.space g).Width = g.Width ∧ (ProcessInput.space g).Player = g.Player := by
  unfold ProcessInput.space
  split_ifs <;> exact ⟨rfl, rfl⟩

/-- The left move lowers the position by at most one step below zero. -/
theorem ProcessInput.left_bounds (v : K) (g : Game K) (hv : 0 ≤ v) :
    (ProcessInput.left v g).Player.Position.x ≤ g.Player.Position.x ∧
      min (-v) g.Player.Position.x ≤ (ProcessInput.left v g).Player.Position.x := by
  unfold ProcessInput.left
  by_cases h1 : (g.Keys GLFW_KEY_A || g.Keys GLFW_KEY_LEFT) = true
  · rw [if_pos h1]
    by_cases h2 : g.Player.Position.x ≥ 0
    · rw [if_pos h2]
      constructor
      · show g.Player.Position.x - v ≤ g.Player.Position.x
        linarith
      · show min (-v) g.Player.Position.x ≤ g.Player.Position.x - v
        exact le_trans (min_le_left _ _) (by linarith)
    · rw [if_neg h2]
      exact ⟨le_refl _, min_le_right _ _⟩
  · rw [if_neg h1]
    exact ⟨le_refl _, min_le_right _ _⟩

/-- The right move raises the position by at most one step above the right limit. -/
theorem ProcessInput.right_bounds (v : K) (g : Game K) (hv : 0 ≤ v) :
    g.Player.Position.x ≤ (ProcessInput.right v g).Player.Position.x ∧
      (ProcessInput.right v g).Player.Position.x ≤
        max ((g.Width : K) - g.Player.Size.x + v) g.Player.Position.x := by
  unfold ProcessInput.right
  by_cases h1 : (g.Keys GLFW_KEY_D || g.Keys GLFW_KEY_RIGHT) = true
  · rw [if_pos h1]
    by_cases h2 : g.Player.Position.x ≤ (g.Width : K) - g.Player.Size.x
    · rw [if_pos h2]
      constructor
      · show g.Player.Position.x ≤ g.Player.Position.x + v
        linarith
      · show g.Player.Position.x + v ≤
          max ((g.Width : K) - g.Player.Size.x + v) g.Player.Position.x
        exact le_trans (by linarith) (le_max_left _ _)
    · rw [if_neg h2]
      exact ⟨le_refl _, le_max_right _ _⟩
  · rw [if_neg h1]
    exact ⟨le_refl _, le_max_right _ _⟩

/-- One call of `ProcessInput` keeps the field width and the paddle size, and keeps the
paddle within one step of the field. -/
theorem ProcessInput_step (dt D : K) (g : Game K) (h0 : 0 ≤ dt) (hD : dt ≤ D)
    (hlo : -(PLAYER_VELOCITY * D) ≤ g.Player.Position.x)
    (hhi : g.Player.Position.x ≤ (g.Width : K) - g.Player.Size.x + PLAYER_VELOCITY * D) :
    (ProcessInput dt g).Width = g.Width ∧
      (ProcessInput dt g).Player.Size = g.Player.Size ∧
      -(PLAYER_VELOCITY * D) ≤ (ProcessInput dt g).Player.Position.x ∧
      (ProcessInput dt g).Player.Position.x ≤
        (g.Width : K) - g.Player.Size.x + PLAYER_VELOCITY * D := by
  have hv : (0 : K) ≤ PLAYER_VELOCITY * dt := by
    unfold PLAYER_VELOCITY
    positivity
  have hvD : (PLAYER_VELOCITY : K) * dt ≤ PLAYER_VELOCITY * D := by
    unfold PLAYER_VELOCITY
    linarith
  unfold ProcessInput
  split_ifs with hA
  · simp only []
    obtain ⟨l1, l2⟩ := ProcessInput.left_frame (PLAYER_VELOCITY * dt) g
    obtain ⟨l3, l4⟩ := ProcessInput.left_bounds (PLAYER_VELOCITY * dt) g hv
    obtain ⟨r1, r2⟩ := ProcessInput.right_frame (PLAYER_VELOCITY * dt)
      (ProcessInput.left (PLAYER_VELOCITY * dt) g)
    obtain ⟨r3, r4⟩ := ProcessInput.right_bounds (PLAYER_VELOCITY * dt)
      (ProcessInput.left (PLAYER_VELOCITY * dt) g) hv
    obtain ⟨s1, s2⟩ := ProcessInput.space_frame
      (ProcessInput.right (PLAYER_VELOCITY * dt) (ProcessInput.left (PLAYER_VELOCITY * dt) g))
    rw [s1, s2, r1, r2, l1, l2]
    rw [l1, l2] at r4
    refine ⟨rfl, rfl, ?_, ?_⟩
    · have : -(PLAYER_VELOCITY * D) ≤ min (-(PLAYER_VELOCITY * dt)) g.Player.Position.x :=
        le_min (by linarith) hlo
      linarith
    · refine le_trans r4 (max_le (by linarith) (by linarith))
  · exact ⟨rfl, rfl, hlo, hhi⟩

/-- The invariant over any number of frames. -/
theorem ProcessInput_frames_bounds (D : K) (frames : List ((Nat → Bool) × K)) :
    ∀ g : Game K, (∀ f ∈ frames, 0 ≤ f.2 ∧ f.2 ≤ D) →
      -(PLAYER_VELOCITY * D) ≤ g.Player.Position.x →
      g.Player.Position.x ≤ (g.Width : K) - g.Player.Size.x + PLAYER_VELOCITY * D →
      (ProcessInput.frames frames g).Width = g.Width ∧
        (ProcessInput.frames frames g).Player.Size = g.Player.Size ∧
        -(PLAYER_VELOCITY * D) ≤ (ProcessInput.frames frames g).Player.Position.x ∧
        (ProcessInput.frames frames g).Player.Position.x ≤
          (g.Width : K) - g.Player.Size.x + PLAYER_VELOCITY * D := by
  induction frames with
  | nil =>
    intro g _ hlo hhi
    exact ⟨rfl, rfl, hlo, hhi⟩
  | cons f fs ih =>
    intro g hf hlo hhi
    have hf0 := hf f (List.mem_cons_self f fs)
    obtain ⟨w1, s1, lo1, hi1⟩ :=
      ProcessInput_step f.2 D { g with Keys := f.1 } hf0.1 hf0.2 hlo hhi
    have key := ih (ProcessInput f.2 { g with Keys := f.1 })
      (fun f1 h1 => hf f1 (List.mem_cons_of_mem f h1)) lo1 (by rw [w1, s1]; exact hi1)
    rw [w1, s1] at key
    exact key

end Paddle

/-- C8, as stated, fails: with the paddle at x = 0 in an 800 wide field (inside
[0, 800 - 100]), one frame with the key A held and elapsed time 1 puts the paddle at
x = -500. -/
theorem paddle_stays_in_field_counterexample :
    (0 : ℚ) ≤ (leftEdgeGame : Game ℚ).Player.Position.x ∧
      (leftEdgeGame : Game ℚ).Player.Position.x ≤
        ((leftEdgeGame : Game ℚ).Width : ℚ) - (leftEdgeGame : Game ℚ).Player.Size.x ∧
      (∀ f ∈ (holdA : List ((Nat → Bool) × ℚ)), 0 ≤ f.2) ∧
      (ProcessInput.frames holdA (leftEdgeGame : Game ℚ)).Player.Position.x = -500 ∧
      ¬(0 ≤ (ProcessInput.frames holdA (leftEdgeGame : Game ℚ)).Player.Position.x) := by
  have h : (ProcessInput.frames holdA (leftEdgeGame : Game ℚ)).Player.Position.x = -500 := by
    simp [ProcessInput.frames, ProcessInput, ProcessInput.left, ProcessInput.right,
      ProcessInput.space, leftEdgeGame, holdA, PLAYER_VELOCITY, GLFW_KEY_A, GLFW_KEY_D,
      GLFW_KEY_LEFT, GLFW_KEY_RIGHT, GLFW_KEY_SPACE]
  refine ⟨?_, ?_, ?_, h, ?_⟩
  · norm_num [leftEdgeGame]
  · norm_num [leftEdgeGame]
  · simp [holdA]
  · rw [h]
    norm_num

/-- C8, amended: the move is gated on the position before the move and is not clamped
after it, so the paddle can leave the field by one step.  Starting from a paddle position
in `[0, Width - Player.Size.x]` and applying `ProcessInput` any number of times with any
key states and any elapsed times in `[0, D]`, the paddle's `Position.x` is always
`≥ -(PLAYER_VELOCITY * D)` and `≤ Width - Player.Size.x + PLAYER_VELOCITY * D`. -/
theorem paddle_stays_within_one_step (D : K) (frames : List ((Nat → Bool) × K)) (g : Game K)
    (hD : 0 ≤ D) (hf : ∀ f ∈ frames, 0 ≤ f.2 ∧ f.2 ≤ D)
    (hlo : 0 ≤ g.Player.Position.x)
    (hhi : g.Player.Position.x ≤ (g.Width : K) - g.Player.Size.x) :
    -(PLAYER_VELOCITY * D) ≤ (ProcessInput.frames frames g).Player.Position.x ∧
      (ProcessInput.frames frames g).Player.Position.x ≤
        (g.Width : K) - g.Player.Size.x + PLAYER_VELOCITY * D := by
  have hv : (0 : K) ≤ PLAYER_VELOCITY * D := by
    unfold PLAYER_VELOCITY
    positivity
  have key := ProcessInput_frames_bounds D frames g hf (by linarith) (by linarith)
  exact ⟨key.2.2.1, key.2.2.2⟩

/-- Witness of the amended C8: the paddle at the left edge, one frame of one second with
the key A held. -/
theorem paddle_stays_within_one_step_witness :
    -(PLAYER_VELOCITY * 1) ≤
        (ProcessInput.frames holdA (leftEdgeGame : Game ℚ)).Player.Position.x ∧
      (ProcessInput.frames holdA (leftEdgeGame : Game ℚ)).Player.Position.x ≤
        ((leftEdgeGame : Game ℚ).Width : ℚ) - (leftEdgeGame : Game ℚ).Player.Size.x +
          PLAYER_VELOCITY * 1 :=
  paddle_stays_within_one_step (1 : ℚ) holdA leftEdgeGame
    (by norm_num) (by simp [holdA]) (by norm_num [leftEdgeGame]) (by norm_num [leftEdgeGame])

/-! ## C9 -/

section Frame

theorem Update_State (sqrt : K → K) (toInt : K → Int) (v0 : Vec2 K)
    (Move : K → Nat → BallObject K → BallObject K) (dt : K) (g : Game K) :
    (Update sqrt toInt v0 Move dt g).State = g.State := rfl

theorem Update_Player (sqrt : K → K) (toInt : K → Int) (v0 : Vec2 K)
    (Move : K → Nat → BallObject K → BallObject K) (dt : K) (g : Game K) :
    (Update sqrt toInt v0 Move dt g).Player = g.Player := rfl

end Frame

/-- C9, as stated, fails: in an active game whose level has all its bricks destroyed, the
round state after `Update` is not `GAME_WIN`. -/
theorem update_wins_when_cleared_counterexample :
    (clearedGame : Game ℝ).State = GameState.GAME_ACTIVE ∧
      (∀ box ∈ (clearedGame : Game ℝ).activeBricks, box.Destroyed = true) ∧
      (clearedGame : Game ℝ).activeBricks ≠ [] ∧
      ¬((Update Real.sqrt truncate ⟨100, -350⟩ BallObject.Move (1 / 60)
        (clearedGame : Game ℝ)).State = GameState.GAME_WIN) := by
  refine ⟨rfl, ?_, ?_, ?_⟩
  · intro box hbox
    have h : box ∈ [(deadBrick : GameObject ℝ)] := hbox
    rw [List.mem_singleton] at h
    rw [h]
    rfl
  · intro h
    have h2 : [(deadBrick : GameObject ℝ)] = [] := h
    exact List.cons_ne_nil _ _ h2
  · rw [Update_State]
    intro h
    have h2 : GameState.GAME_ACTIVE = GameState.GAME_WIN := h
    exact GameState.noConfusion h2

/-- C9, amended: `Update` never writes the round state (no statement of the program
assigns `GAME_WIN`); if the round state is Active and every brick of the current level is
marked destroyed, then after the next `Update` the round state is still Active. -/
theorem update_keeps_state_when_cleared (sqrt : K → K) (toInt : K → Int) (v0 : Vec2 K)
    (Move : K → Nat → BallObject K → BallObject K) (dt : K) (g : Game K)
    (hA : g.State = GameState.GAME_ACTIVE)
    (_hall : ∀ box ∈ g.activeBricks, box.Destroyed = true) :
    (Update sqrt toInt v0 Move dt g).State = GameState.GAME_ACTIVE ∧
      (Update sqrt toInt v0 Move dt g).State = g.State :=
  ⟨(Update_State sqrt toInt v0 Move dt g).trans hA, Update_State sqrt toInt v0 Move dt g⟩

/-- Witness of the amended C9 at the cleared game. -/
theorem update_keeps_state_when_cleared_witness :
    (Update Real.sqrt truncate ⟨100, -350⟩ BallObject.Move (1 / 60) (clearedGame : Game ℝ)).State =
        GameState.GAME_ACTIVE ∧
      (Update Real.sqrt truncate ⟨100, -350⟩ BallObject.Move (1 / 60) (clearedGame : Game ℝ)).State =
        (clearedGame : Game ℝ).State :=
  update_keeps_state_when_cleared Real.sqrt truncate ⟨100, -350⟩ BallObject.Move (1 / 60) clearedGame
    rfl (fun box hbox => by
      have h : box ∈ [(deadBrick : GameObject ℝ)] := hbox
      rw [List.mem_singleton] at h
      rw [h]
      rfl)

/-! ## C10 -/

section Reset

theorem Render_of_fallen (loader : String → Nat → K → List (Vec2 K × Vec2 K × Bool))
    (R : K) (v0 : Vec2 K) (g : Game K) (hA : g.State = GameState.GAME_ACTIVE)
    (hy : g.Ball.Position.y > (g.Height : K)) :
    Render loader R v0 g = ResetPlayer R v0 (ResetLevel loader g) := by
  unfold Render
  rw [if_pos hA, if_pos hy]

theorem ResetLevel_frame (loader : String → Nat → K → List (Vec2 K × Vec2 K × Bool))
    (g : Game K) :
    (ResetLevel loader g).Width = g.Width ∧ (ResetLevel loader g).Height = g.Height ∧
      (ResetLevel loader g).Level = g.Level := by
  unfold ResetLevel
  split_ifs <;> exact ⟨rfl, rfl, rfl⟩

/-- A reloaded level has no destroyed brick. -/
theorem GameLevel.Load_not_destroyed (triples : List (Vec2 K × Vec2 K × Bool)) :
    ∀ box ∈ (GameLevel.Load triples).Bricks, box.Destroyed = false := by
  intro box hbox
  unfold GameLevel.Load at hbox
  rw [List.mem_map] at hbox
  obtain ⟨t, _, ht⟩ := hbox
  rw [← ht]

/-- Replacing the active level makes its bricks the active bricks. -/
theorem activeBricks_set (g : Game K) (lv : GameLevel K) (box : GameObject K)
    (h : box ∈ Game.activeBricks { g with Levels := g.Levels.set g.Level lv }) :
    box ∈ lv.Bricks := by
  unfold Game.activeBricks at h
  simp only [] at h
  by_cases hl : g.Level < g.Levels.length
  · rw [List.getElem?_set_self hl] at h
    exact h
  · rw [List.getElem?_eq_none (by rw [List.length_set]; exact not_lt.1 hl)] at h
    exact absurd h (List.not_mem_nil box)

/-- After `ResetLevel` with a level index below four no active brick is destroyed. -/
theorem ResetLevel_not_destroyed
    (loader : String → Nat → K → List (Vec2 K × Vec2 K × Bool)) (g : Game K)
    (hl : g.Level < 4) :
    ∀ box ∈ (ResetLevel loader g).activeBricks, box.Destroyed = false := by
  intro box hbox
  unfold ResetLevel at hbox
  split_ifs at hbox with h0 h1 h2 h3
  · rw [← h0] at hbox
    exact GameLevel.Load_not_destroyed _ box (activeBricks_set g _ box hbox)
  · rw [← h1] at hbox
    exact GameLevel.Load_not_destroyed _ box (activeBricks_set g _ box hbox)
  · rw [← h2] at hbox
    exact GameLevel.Load_not_destroyed _ box (activeBricks_set g _ box hbox)
  · rw [← h3] at hbox
    exact GameLevel.Load_not_destroyed _ box (activeBricks_set g _ box hbox)
  · omega

end Reset

/-- C10, as stated, fails: in an active 800 by 600 game whose ball is at y = 601, below
the field, with the paddle at the left edge and the only brick destroyed, `Update` resets
nothing: afterwards the paddle is still at x = 0, not at its start position, and the
brick is still destroyed. -/
theorem update_resets_fallen_ball_counterexample :
    (fallenGame : Game ℝ).Ball.Position.y > ((fallenGame : Game ℝ).Height : ℝ) ∧
      (Update Real.sqrt truncate ⟨100, -350⟩ BallObject.Move (1 / 60)
        (fallenGame : Game ℝ)).Player.Position.x = 0 ∧
      ¬((Update Real.sqrt truncate ⟨100, -350⟩ BallObject.Move (1 / 60)
            (fallenGame : Game ℝ)).Player.Position =
          playerStart (fallenGame : Game ℝ).Width (fallenGame : Game ℝ).Height ∧
        (Update Real.sqrt truncate ⟨100, -350⟩ BallObject.Move (1 / 60)
            (fallenGame : Game ℝ)).Ball.Position =
          playerStart (fallenGame : Game ℝ).Width (fallenGame : Game ℝ).Height +
            ⟨(PLAYER_SIZE : Vec2 ℝ).x / 2 - 10, -(10 * 2)⟩ ∧
        ∀ box ∈ (Update Real.sqrt truncate ⟨100, -350⟩ BallObject.Move (1 / 60)
            (fallenGame : Game ℝ)).activeBricks, box.Destroyed = false) := by
  refine ⟨?_, rfl, ?_⟩
  · norm_num [fallenGame]
  · rintro ⟨h, _, _⟩
    rw [Update_Player] at h
    have hx := congrArg Vec2.x h
    norm_num [fallenGame, playerStart, PLAYER_SIZE] at hx

/-- C10, amended: the bottom-edge check is made by `Render`, not by `Update`.  If the round
state is Active and the ball's `Position.y` is greater than the field height when `Render`
is called, then after that call the round has been reset: the paddle is at its start
position `(Width / 2 - PLAYER_SIZE.x / 2, Height - PLAYER_SIZE.y)`, the ball is at its
start position on top of the paddle centre, and, for a level index below four, no brick
of the active level is destroyed. -/
theorem render_resets_fallen_ball
    (loader : String → Nat → K → List (Vec2 K × Vec2 K × Bool)) (R : K) (v0 : Vec2 K)
    (g : Game K) (hA : g.State = GameState.GAME_ACTIVE)
    (hy : g.Ball.Position.y > (g.Height : K)) (hl : g.Level < 4) :
    (Render loader R v0 g).Player.Position = playerStart g.Width g.Height ∧
      (Render loader R v0 g).Ball.Position =
        playerStart g.Width g.Height + ⟨(PLAYER_SIZE : Vec2 K).x / 2 - R, -(R * 2)⟩ ∧
      ∀ box ∈ (Render loader R v0 g).activeBricks, box.Destroyed = false := by
  rw [Render_of_fallen loader R v0 g hA hy]
  obtain ⟨hw, hh, _⟩ := ResetLevel_frame loader g
  refine ⟨?_, ?_, ?_⟩
  · show playerStart (ResetLevel loader g).Width (ResetLevel loader g).Height = _
    rw [hw, hh]
  · show playerStart (ResetLevel loader g).Width (ResetLevel loader g).Height + _ = _
    rw [hw, hh]
  · exact ResetLevel_not_destroyed loader g hl

/-- Witness of the amended C10 at the fallen game, with a loader that yields one brick. -/
theorem render_resets_fallen_ball_witness :
    (Render (fun _ _ _ => [(⟨0, 0⟩, ⟨100, 20⟩, false)]) 10 ⟨100, -350⟩
        (fallenGame : Game ℝ)).Player.Position =
        playerStart (fallenGame : Game ℝ).Width (fallenGame : Game ℝ).Height ∧
      (Render (fun _ _ _ => [(⟨0, 0⟩, ⟨100, 20⟩, false)]) 10 ⟨100, -350⟩
        (fallenGame : Game ℝ)).Ball.Position =
        playerStart (fallenGame : Game ℝ).Width (fallenGame : Game ℝ).Height +
          ⟨(PLAYER_SIZE : Vec2 ℝ).x / 2 - 10, -(10 * 2)⟩ ∧
      ∀ box ∈ (Render (fun _ _ _ => [(⟨0, 0⟩, ⟨100, 20⟩, false)]) 10 ⟨100, -350⟩
        (fallenGame : Game ℝ)).activeBricks, box.Destroyed = false :=
  render_resets_fallen_ball (fun _ _ _ => [(⟨0, 0⟩, ⟨100, 20⟩, false)]) 10 ⟨100, -350⟩
    fallenGame rfl (by norm_num [fallenGame]) (by decide)

/-! ## C12 -/

/-- C12: box-vs-box overlap is symmetric: for all entities `A` and `B`, of any positions
and sizes, `CheckCollision(A, B) = CheckCollision(B, A)`. -/
theorem checkCollision_aabb_symmetric (A B : GameObject K) :
    CheckCollision.aabb A B = CheckCollision.aabb B A := by
  unfold CheckCollision.aabb
  simp only []
  rw [Bool.and_comm (decide (A.Position.x + A.Size.x ≥ B.Position.x)),
    Bool.and_comm (decide (A.Position.y + A.Size.y ≥ B.Position.y))]

/-! ## C13 -/

section Boxes

/-- The box-vs-box test as a proposition. -/
theorem CheckCollision.aabb_iff (A B : GameObject K) :
    CheckCollision.aabb A B = true ↔
      (B.Position.x ≤ A.Position.x + A.Size.x ∧ A.Position.x ≤ B.Position.x + B.Size.x) ∧
        (B.Position.y ≤ A.Position.y + A.Size.y ∧ A.Position.y ≤ B.Position.y + B.Size.y) := by
  unfold CheckCollision.aabb
  simp only [Bool.and_eq_true, decide_eq_true_eq, ge_iff_le]

end Boxes

/-- C13: for boxes `A` and `B` of non-negative sizes the box-vs-box `CheckCollision` is
true exactly when the closed rectangles `[x, x+w] x [y, y+h]` share a point; in
particular rectangles that touch along an edge or at a corner (the right edge of `A` on
the left edge of `B`, the vertical ranges meeting) are reported as overlapping. -/
theorem checkCollision_aabb_iff_share_point (A B : GameObject K)
    (hAx : 0 ≤ A.Size.x) (hAy : 0 ≤ A.Size.y) (hBx : 0 ≤ B.Size.x) (hBy : 0 ≤ B.Size.y) :
    (CheckCollision.aabb A B = true ↔ ∃ q : Vec2 K, inClosedBox A q ∧ inClosedBox B q) ∧
      (A.Position.x + A.Size.x = B.Position.x →
        B.Position.y ≤ A.Position.y + A.Size.y → A.Position.y ≤ B.Position.y + B.Size.y →
        CheckCollision.aabb A B = true) := by
  constructor
  · rw [CheckCollision.aabb_iff]
    constructor
    · rintro ⟨⟨h1, h2⟩, h3, h4⟩
      refine ⟨⟨max A.Position.x B.Position.x, max A.Position.y B.Position.y⟩, ?_, ?_⟩
      · exact ⟨le_max_left _ _, max_le (by linarith) h1, le_max_left _ _,
          max_le (by linarith) h3⟩
      · exact ⟨le_max_right _ _, max_le h2 (by linarith), le_max_right _ _,
          max_le h4 (by linarith)⟩
    · rintro ⟨q, ⟨a1, a2, a3, a4⟩, b1, b2, b3, b4⟩
      exact ⟨⟨le_trans b1 a2, le_trans a1 b2⟩, le_trans b3 a4, le_trans a3 b4⟩
  · intro e h3 h4
    rw [CheckCollision.aabb_iff]
    exact ⟨⟨by linarith, by linarith⟩, h3, h4⟩

/-- Witness of C13: the brick of the scenario and a brick touching it at one corner. -/
theorem checkCollision_aabb_iff_share_point_witness :
    (CheckCollision.aabb (scenarioBrick : GameObject ℚ) cornerTouchBrick = true ↔
        ∃ q : Vec2 ℚ, inClosedBox scenarioBrick q ∧ inClosedBox cornerTouchBrick q) ∧
      CheckCollision.aabb (scenarioBrick : GameObject ℚ) cornerTouchBrick = true :=
  ⟨(checkCollision_aabb_iff_share_point scenarioBrick cornerTouchBrick
      (by norm_num [scenarioBrick]) (by norm_num [scenarioBrick])
      (by norm_num [cornerTouchBrick]) (by norm_num [cornerTouchBrick])).1,
    (checkCollision_aabb_iff_share_point scenarioBrick cornerTouchBrick
      (by norm_num [scenarioBrick]) (by norm_num [scenarioBrick])
      (by norm_num [cornerTouchBrick]) (by norm_num [cornerTouchBrick])).2
      (by norm_num [scenarioBrick, cornerTouchBrick])
      (by norm_num [scenarioBrick, cornerTouchBrick])
      (by norm_num [scenarioBrick, cornerTouchBrick])⟩

/-! ## C14 -/

/-- C14: for every box and every ball of radius `≥ 0` whose circle centre (position plus
radius on both axes) lies strictly inside the box, the circle-vs-box `CheckCollision`
reports contact. -/
theorem checkCollision_contact_of_centre_strictly_inside (sqrt : K → K) (hs : IsSqrt sqrt)
    (one : BallObject K) (two : GameObject K) (hr : 0 ≤ one.Radius)
    (hx1 : two.Position.x < one.Position.x + one.Radius)
    (hx2 : one.Position.x + one.Radius < two.Position.x + two.Size.x)
    (hy1 : two.Position.y < one.Position.y + one.Radius)
    (hy2 : one.Position.y + one.Radius < two.Position.y + two.Size.y) :
    (CheckCollision sqrt one two).1 = true := by
  have hmem : inClosedBox two (circleCentre one) :=
    ⟨le_of_lt hx1, le_of_lt hx2, le_of_lt hy1, le_of_lt hy2⟩
  rw [CheckCollision_of_centre_mem hs one two hr hmem]

/-- Witness of C14 at the ball and the brick of the spec's scenario. -/
theorem checkCollision_contact_of_centre_strictly_inside_witness :
    (CheckCollision Real.sqrt (scenarioBall : BallObject ℝ) scenarioBrick).1 = true :=
  checkCollision_contact_of_centre_strictly_inside Real.sqrt isSqrt_real scenarioBall
    scenarioBrick (by norm_num [scenarioBall]) (by norm_num [scenarioBall, scenarioBrick])
    (by norm_num [scenarioBall, scenarioBrick]) (by norm_num [scenarioBall, scenarioBrick])
    (by norm_num [scenarioBall, scenarioBrick])

/-! ## C15 -/

section Magnitude

theorem Vec2.dot_scale_self (v : Vec2 K) (k : K) :
    Vec2.dot (Vec2.scale v k) (Vec2.scale v k) = k * k * Vec2.dot v v := by
  unfold Vec2.dot Vec2.scale
  ring

/-- The square root of the squared length of a stretched vector. -/
theorem IsSqrt.sqrt_dot_scale {sqrt : K → K} (hs : IsSqrt sqrt) (v : Vec2 K) (k : K)
    (hk : 0 < k) :
    sqrt (Vec2.dot (Vec2.scale v k) (Vec2.scale v k)) = k * sqrt (Vec2.dot v v) := by
  have h0 := hs.nonneg (Vec2.dot_self_nonneg (Vec2.scale v k))
  have h1 := hs.mul_self (Vec2.dot_self_nonneg (Vec2.scale v k))
  have h2 := hs.nonneg (Vec2.dot_self_nonneg v)
  have h3 := hs.mul_self (Vec2.dot_self_nonneg v)
  have h4 : 0 ≤ k * sqrt (Vec2.dot v v) := mul_nonneg (le_of_lt hk) h2
  apply (mul_self_inj_of_nonneg h0 h4).1
  rw [h1, Vec2.dot_scale_self,
    show k * sqrt (Vec2.dot v v) * (k * sqrt (Vec2.dot v v)) =
      k * k * (sqrt (Vec2.dot v v) * sqrt (Vec2.dot v v)) by ring, h3]

/-- Stretching a vector by a positive factor does not change its unit vector. -/
theorem Vec2.normalize_scale {sqrt : K → K} (hs : IsSqrt sqrt) (v : Vec2 K) (k : K)
    (hk : 0 < k) : Vec2.normalize sqrt (Vec2.scale v k) = Vec2.normalize sqrt v := by
  have hk0 : k ≠ 0 := ne_of_gt hk
  have e : k * (1 / (k * sqrt (Vec2.dot v v))) = 1 / sqrt (Vec2.dot v v) := by
    rw [← mul_div_assoc, mul_one]
    rw [show k / (k * sqrt (Vec2.dot v v)) = k * 1 / (k * sqrt (Vec2.dot v v)) by
      rw [mul_one]]
    exact mul_div_mul_left 1 (sqrt (Vec2.dot v v)) hk0
  apply Vec2.ext
  · show v.x * k * (1 / sqrt (Vec2.dot (Vec2.scale v k) (Vec2.scale v k))) =
      v.x * (1 / sqrt (Vec2.dot v v))
    rw [hs.sqrt_dot_scale v k hk, mul_assoc, e]
  · show v.y * k * (1 / sqrt (Vec2.dot (Vec2.scale v k) (Vec2.scale v k))) =
      v.y * (1 / sqrt (Vec2.dot v v))
    rw [hs.sqrt_dot_scale v k hk, mul_assoc, e]

/-- The classifier reads its input through the unit vector only. -/
theorem VectorDirection_congr (sqrt : K → K) (a b : Vec2 K)
    (h : Vec2.normalize sqrt a = Vec2.normalize sqrt b) :
    VectorDirection sqrt a = VectorDirection sqrt b := by
  have hb : VectorDirection.body sqrt a = VectorDirection.body sqrt b := by
    funext st i
    unfold VectorDirection.body
    rw [h]
  unfold VectorDirection
  rw [hb]

end Magnitude

/-- C15: direction classification does not depend on the magnitude of its input: for
every vector `v` and every scalar `k > 0`, `VectorDirection(v * k) = VectorDirection(v)`. -/
theorem vectorDirection_scale_invariant (sqrt : K → K) (hs : IsSqrt sqrt) (v : Vec2 K) (k : K)
    (hk : 0 < k) :
    VectorDirection sqrt (Vec2.scale v k) = VectorDirection sqrt v :=
  VectorDirection_congr sqrt _ _ (Vec2.normalize_scale hs v k hk)

/-- Witness of C15 at the vector (3,4) and the factor 2. -/
theorem vectorDirection_scale_invariant_witness :
    VectorDirection Real.sqrt (Vec2.scale (⟨3, 4⟩ : Vec2 ℝ) 2) =
      VectorDirection Real.sqrt (⟨3, 4⟩ : Vec2 ℝ) :=
  vectorDirection_scale_invariant Real.sqrt isSqrt_real ⟨3, 4⟩ 2 (by norm_num)

/-! ## C16 -/

section CentreHit

end CentreHit

/-- C17: for a single non-destroyed brick in contact with the ball, the brick step marks
the brick destroyed and changes the ball only on the resolved axis.  If the direction is
Left or Right, `Velocity.x` is negated and `Position.x` is increased (Left) or decreased
(Right) by `radius - |vector.x|`, while `Velocity.y` and `Position.y` are unchanged;
otherwise `Velocity.y` is negated and `Position.y` is decreased (Up) or increased (any
other direction) by `radius - |vector.y|`, while `Velocity.x` and `Position.x` are
unchanged.  The brick keeps its place and the ball its radius and stuck flag. -/
theorem brick_step_changes_resolved_axis_only (sqrt : K → K) (ball : BallObject K)
    (box : GameObject K) (hnd : box.Destroyed = false)
    (hc : (CheckCollision sqrt ball box).1 = true) :
    DoCollisions.bricks sqrt ball [box] =
        ((DoCollisions.brick sqrt ball box).1, [(DoCollisions.brick sqrt ball box).2]) ∧
      (DoCollisions.brick sqrt ball box).2 = { box with Destroyed := true } ∧
      (DoCollisions.brick sqrt ball box).1.Radius = ball.Radius ∧
      (DoCollisions.brick sqrt ball box).1.Stuck = ball.Stuck ∧
      (((CheckCollision sqrt ball box).2.1 = LEFT ∨ (CheckCollision sqrt ball box).2.1 = RIGHT) →
        (DoCollisions.brick sqrt ball box).1.Velocity.x = -ball.Velocity.x ∧
          (DoCollisions.brick sqrt ball box).1.Velocity.y = ball.Velocity.y ∧
          (DoCollisions.brick sqrt ball box).1.Position.y = ball.Position.y ∧
          ((CheckCollision sqrt ball box).2.1 = LEFT →
            (DoCollisions.brick sqrt ball box).1.Position.x =
              ball.Position.x + (ball.Radius - |(CheckCollision sqrt ball box).2.2.x|)) ∧
          ((CheckCollision sqrt ball box).2.1 = RIGHT →
            (DoCollisions.brick sqrt ball box).1.Position.x =
              ball.Position.x - (ball.Radius - |(CheckCollision sqrt ball box).2.2.x|))) ∧
      (¬((CheckCollision sqrt ball box).2.1 = LEFT ∨
          (CheckCollision sqrt ball box).2.1 = RIGHT) →
        (DoCollisions.brick sqrt ball box).1.Velocity.y = -ball.Velocity.y ∧
          (DoCollisions.brick sqrt ball box).1.Velocity.x = ball.Velocity.x ∧
          (DoCollisions.brick sqrt ball box).1.Position.x = ball.Position.x ∧
          ((CheckCollision sqrt ball box).2.1 = UP →
            (DoCollisions.brick sqrt ball box).1.Position.y =
              ball.Position.y - (ball.Radius - |(CheckCollision sqrt ball box).2.2.y|)) ∧
          ((CheckCollision sqrt ball box).2.1 ≠ UP →
            (DoCollisions.brick sqrt ball box).1.Position.y =
              ball.Position.y + (ball.Radius - |(CheckCollision sqrt ball box).2.2.y|))) := by
  refine ⟨rfl, brick_box_of_contact sqrt ball box hnd hc, ?_, ?_, ?_, ?_⟩
  · by_cases hL : (CheckCollision sqrt ball box).2.1 = LEFT
    · rw [brick_ball_left sqrt ball box hnd hc hL]
    · by_cases hR : (CheckCollision sqrt ball box).2.1 = RIGHT
      · rw [brick_ball_right sqrt ball box hnd hc hR]
      · by_cases hU : (CheckCollision sqrt ball box).2.1 = UP
        · rw [brick_ball_up sqrt ball box hnd hc hU]
        · rw [brick_ball_other sqrt ball box hnd hc hL hR hU]
  · by_cases hL : (CheckCollision sqrt ball box).2.1 = LEFT
    · rw [brick_ball_left sqrt ball box hnd hc hL]
    · by_cases hR : (CheckCollision sqrt ball box).2.1 = RIGHT
      · rw [brick_ball_right sqrt ball box hnd hc hR]
      · by_cases hU : (CheckCollision sqrt ball box).2.1 = UP
        · rw [brick_ball_up sqrt ball box hnd hc hU]
        · rw [brick_ball_other sqrt ball box hnd hc hL hR hU]
  · intro hh
    by_cases hL : (CheckCollision sqrt ball box).2.1 = LEFT
    · rw [brick_ball_left sqrt ball box hnd hc hL]
      refine ⟨rfl, rfl, rfl, fun _ => rfl, fun hR => ?_⟩
      rw [hL] at hR
      exact absurd hR (by decide)
    · have hR : (CheckCollision sqrt ball box).2.1 = RIGHT := hh.resolve_left hL
      rw [brick_ball_right sqrt ball box hnd hc hR]
      exact ⟨rfl, rfl, rfl, fun h => absurd h hL, fun _ => rfl⟩
  · intro hh
    have hL : (CheckCollision sqrt ball box).2.1 ≠ LEFT := fun h => hh (Or.inl h)
    have hR : (CheckCollision sqrt ball box).2.1 ≠ RIGHT := fun h => hh (Or.inr h)
    by_cases hU : (CheckCollision sqrt ball box).2.1 = UP
    · rw [brick_ball_up sqrt ball box hnd hc hU]
      exact ⟨rfl, rfl, rfl, fun _ => rfl, fun h => absurd hU h⟩
    · rw [brick_ball_other sqrt ball box hnd hc hL hR hU]
      exact ⟨rfl, rfl, rfl, fun h => absurd h hU, fun _ => rfl⟩

/-- Witness of C17 at a ball above the brick of the scenario: contact from above. -/
theorem brick_step_changes_resolved_axis_only_witness :
    (DoCollisions.brick Real.sqrt (aboveBall : BallObject ℝ) scenarioBrick).2 =
        { (scenarioBrick : GameObject ℝ) with Destroyed := true } ∧
      (DoCollisions.brick Real.sqrt (aboveBall : BallObject ℝ) scenarioBrick).1.Radius =
        (aboveBall : BallObject ℝ).Radius :=
  ⟨(brick_step_changes_resolved_axis_only Real.sqrt aboveBall scenarioBrick rfl
      aboveBall_contact).2.1,
    (brick_step_changes_resolved_axis_only Real.sqrt aboveBall scenarioBrick rfl
      aboveBall_contact).2.2.1⟩

/-! ## C18 -/

section Tracking

/-- The left move of a stuck ball: ball and paddle move by the same amount, the ball
stays stuck. -/
theorem ProcessInput.left_tracks (v : K) (g : Game K) (hS : g.Ball.Stuck = true) :
    (ProcessInput.left v g).Ball.Position.x - g.Ball.Position.x =
        (ProcessInput.left v g).Player.Position.x - g.Player.Position.x ∧
      (ProcessInput.left v g).Ball.Position.y = g.Ball.Position.y ∧
      (ProcessInput.left v g).Ball.Velocity = g.Ball.Velocity ∧
      (ProcessInput.left v g).Ball.Stuck = true := by
  unfold ProcessInput.left
  by_cases h1 : (g.Keys GLFW_KEY_A || g.Keys GLFW_KEY_LEFT) = true
  · rw [if_pos h1]
    by_cases h2 : g.Player.Position.x ≥ 0
    · rw [if_pos h2, if_pos hS]
      refine ⟨?_, rfl, rfl, hS⟩
      show g.Ball.Position.x - v - g.Ball.Position.x =
        g.Player.Position.x - v - g.Player.Position.x
      ring
    · rw [if_neg h2]
      exact ⟨by rw [sub_self, sub_self], rfl, rfl, hS⟩
  · rw [if_neg h1]
    exact ⟨by rw [sub_self, sub_self], rfl, rfl, hS⟩

/-- The right move of a stuck ball: ball and paddle move by the same amount, the ball
stays stuck. -/
theorem ProcessInput.right_tracks (v : K) (g : Game K) (hS : g.Ball.Stuck = true) :
    (ProcessInput.right v g).Ball.Position.x - g.Ball.Position.x =
        (ProcessInput.right v g).Player.Position.x - g.Player.Position.x ∧
      (ProcessInput.right v g).Ball.Position.y = g.Ball.Position.y ∧
      (ProcessInput.right v g).Ball.Velocity = g.Ball.Velocity ∧
      (ProcessInput.right v g).Ball.Stuck = true := by
  unfold ProcessInput.right
  by_cases h1 : (g.Keys GLFW_KEY_D || g.Keys GLFW_KEY_RIGHT) = true
  · rw [if_pos h1]
    by_cases h2 : g.Player.Position.x ≤ (g.Width : K) - g.Player.Size.x
    · rw [if_pos h2, if_pos hS]
      refine ⟨?_, rfl, rfl, hS⟩
      show g.Ball.Position.x + v - g.Ball.Position.x =
        g.Player.Position.x + v - g.Player.Position.x
      ring
    · rw [if_neg h2]
      exact ⟨by rw [sub_self, sub_self], rfl, rfl, hS⟩
  · rw [if_neg h1]
    exact ⟨by rw [sub_self, sub_self], rfl, rfl, hS⟩

/-- The space key leaves the paddle and the ball's position and velocity alone. -/
theorem ProcessInput.space_ball (g : Game K) :
    (ProcessInput.space g).Ball.Position = g.Ball.Position ∧
      (ProcessInput.space g).Ball.Velocity = g.Ball.Velocity ∧
      (ProcessInput.space g).Player = g.Player := by
  unfold ProcessInput.space
  split_ifs <;> exact ⟨rfl, rfl, rfl⟩

end Tracking

/-- C18: a stuck ball tracks the paddle: for every state with round state Active and the
ball's `Stuck` flag true, for every key state and elapsed time `dt`, `ProcessInput`
changes the ball's `Position.x` by exactly the amount it changes the paddle's
`Position.x`, and leaves the ball's `Position.y` and velocity unchanged. -/
theorem stuck_ball_tracks_paddle (dt : K) (g : Game K)
    (hA : g.State = GameState.GAME_ACTIVE) (hS : g.Ball.Stuck = true) :
    (ProcessInput dt g).Ball.Position.x - g.Ball.Position.x =
        (ProcessInput dt g).Player.Position.x - g.Player.Position.x ∧
      (ProcessInput dt g).Ball.Position.y = g.Ball.Position.y ∧
      (ProcessInput dt g).Ball.Velocity = g.Ball.Velocity := by
  unfold ProcessInput
  rw [if_pos hA]
  simp only []
  obtain ⟨l1, l2, l3, l4⟩ := ProcessInput.left_tracks (PLAYER_VELOCITY * dt) g hS
  obtain ⟨r1, r2, r3, _⟩ := ProcessInput.right_tracks (PLAYER_VELOCITY * dt)
    (ProcessInput.left (PLAYER_VELOCITY * dt) g) l4
  obtain ⟨s1, s2, s3⟩ := ProcessInput.space_ball
    (ProcessInput.right (PLAYER_VELOCITY * dt) (ProcessInput.left (PLAYER_VELOCITY * dt) g))
  rw [s1, s2, s3]
  refine ⟨?_, r2.trans l2, r3.trans l3⟩
  linarith

/-- Witness of C18: the stuck ball of the game at the left edge, the key A held for one
second. -/
theorem stuck_ball_tracks_paddle_witness :
    (ProcessInput 1 (leftEdgeGame : Game ℚ)).Ball.Position.x -
          (leftEdgeGame : Game ℚ).Ball.Position.x =
        (ProcessInput 1 (leftEdgeGame : Game ℚ)).Player.Position.x -
          (leftEdgeGame : Game ℚ).Player.Position.x ∧
      (ProcessInput 1 (leftEdgeGame : Game ℚ)).Ball.Position.y =
        (leftEdgeGame : Game ℚ).Ball.Position.y ∧
      (ProcessInput 1 (leftEdgeGame : Game ℚ)).Ball.Velocity =
        (leftEdgeGame : Game ℚ).Ball.Velocity :=
  stuck_ball_tracks_paddle 1 leftEdgeGame rfl rfl

/-! ## C19 -/

section Bounces

/-- One brick step keeps the absolute value of each velocity component. -/
theorem brick_abs_velocity (sqrt : K → K) (ball : BallObject K) (box : GameObject K) :
    |(DoCollisions.brick sqrt ball box).1.Velocity.x| = |ball.Velocity.x| ∧
      |(DoCollisions.brick sqrt ball box).1.Velocity.y| = |ball.Velocity.y| := by
  unfold DoCollisions.brick
  simp only []
  split_ifs <;> simp only [abs_neg, and_self]

/-- The brick loop keeps the absolute value of each velocity component. -/
theorem bricks_abs_velocity (sqrt : K → K) (l : List (GameObject K)) :
    ∀ ball : BallObject K,
      |(DoCollisions.bricks sqrt ball l).1.Velocity.x| = |ball.Velocity.x| ∧
        |(DoCollisions.bricks sqrt ball l).1.Velocity.y| = |ball.Velocity.y| := by
  induction l with
  | nil => intro ball; exact ⟨rfl, rfl⟩
  | cons box rest ih =>
    intro ball
    obtain ⟨a1, a2⟩ := brick_abs_velocity sqrt ball box
    obtain ⟨b1, b2⟩ := ih (DoCollisions.brick sqrt ball box).1
    exact ⟨b1.trans a1, b2.trans a2⟩

theorem Vec2.dot_self_of_abs (a b : Vec2 K) (hx : |a.x| = |b.x|) (hy : |a.y| = |b.y|) :
    Vec2.dot a a = Vec2.dot b b := by
  unfold Vec2.dot
  rw [← abs_mul_abs_self a.x, ← abs_mul_abs_self a.y, hx, hy, abs_mul_abs_self,
    abs_mul_abs_self]

end Bounces

/-- C19: brick bounces only flip signs: for every brick list (any number of bricks and of
simultaneous contacts) and every ball, after the brick loop of `DoCollisions` the absolute
value of each component of the ball's velocity equals its absolute value before the loop,
hence the ball's speed is unchanged by brick collisions. -/
theorem brick_loop_keeps_speed (sqrt : K → K) (ball : BallObject K)
    (l : List (GameObject K)) :
    |(DoCollisions.bricks sqrt ball l).1.Velocity.x| = |ball.Velocity.x| ∧
      |(DoCollisions.bricks sqrt ball l).1.Velocity.y| = |ball.Velocity.y| ∧
      Vec2.length sqrt (DoCollisions.bricks sqrt ball l).1.Velocity =
        Vec2.length sqrt ball.Velocity := by
  obtain ⟨hx, hy⟩ := bricks_abs_velocity sqrt l ball
  refine ⟨hx, hy, ?_⟩
  unfold Vec2.length
  rw [Vec2.dot_self_of_abs _ _ hx hy]

/-! ## C20 -/

section StartPlacement

/-- The classifier maps a vector pointing along the positive y axis to Up. -/
theorem VectorDirection_up {sqrt : K → K} (hs : IsSqrt sqrt) (R : K) (hR : 0 < R) :
    VectorDirection sqrt (⟨0, R⟩ : Vec2 K) = UP := by
  rcases VectorDirection_sign hs (⟨0, R⟩ : Vec2 K) with
    ⟨_, _, h⟩ | ⟨h, _⟩ | ⟨_, h⟩ | ⟨_, h⟩ | ⟨_, h⟩
  · exact absurd h (ne_of_gt hR)
  · exact h
  · exact absurd h (lt_irrefl _)
  · exact absurd h (not_lt.2 (le_of_lt hR))
  · exact absurd h (lt_irrefl _)

/-- A ball of radius `R > 0` placed on the middle of the top edge of a paddle of the
size `PLAYER_SIZE` touches it from above with the vector `(0, R)`. -/
theorem start_contact {sqrt : K → K} (hs : IsSqrt sqrt) (R : K) (hR : 0 < R)
    (ball : BallObject K) (player : GameObject K)
    (hps : player.Size = PLAYER_SIZE) (hbr : ball.Radius = R)
    (hbx : ball.Position.x = player.Position.x + ((PLAYER_SIZE : Vec2 K).x / 2 - R))
    (hby : ball.Position.y = player.Position.y + -(R * 2)) :
    CheckCollision sqrt ball player = (true, UP, ⟨0, R⟩) := by
  have hv : closestPoint ball player - circleCentre ball = ⟨0, R⟩ := by
    apply Vec2.ext
    · show player.Position.x + player.Size.x / 2 +
          min (max (ball.Position.x + ball.Radius - (player.Position.x + player.Size.x / 2))
            (-(player.Size.x / 2))) (player.Size.x / 2) -
          (ball.Position.x + ball.Radius) = 0
      rw [hps, hbr, hbx]
      have e : player.Position.x + ((PLAYER_SIZE : Vec2 K).x / 2 - R) + R -
          (player.Position.x + (PLAYER_SIZE : Vec2 K).x / 2) = 0 := by ring
      rw [e]
      have h50 : (0 : K) < (PLAYER_SIZE : Vec2 K).x / 2 := by
        unfold PLAYER_SIZE
        norm_num
      rw [max_eq_left (by linarith), min_eq_left (le_of_lt h50)]
      ring
    · show player.Position.y + player.Size.y / 2 +
          min (max (ball.Position.y + ball.Radius - (player.Position.y + player.Size.y / 2))
            (-(player.Size.y / 2))) (player.Size.y / 2) -
          (ball.Position.y + ball.Radius) = R
      rw [hps, hbr, hby]
      have h10 : (0 : K) < (PLAYER_SIZE : Vec2 K).y / 2 := by
        unfold PLAYER_SIZE
        norm_num
      have e : player.Position.y + -(R * 2) + R -
          (player.Position.y + (PLAYER_SIZE : Vec2 K).y / 2) =
          -R - (PLAYER_SIZE : Vec2 K).y / 2 := by ring
      rw [e, max_eq_right (by linarith), min_eq_left (by linarith)]
      ring
  have hlen : Vec2.length sqrt (⟨0, R⟩ : Vec2 K) ≤ ball.Radius := by
    rw [Vec2.length_le_iff hs, hbr]
    refine ⟨le_of_lt hR, ?_⟩
    simp
  rw [CheckCollision_eq, hv, if_pos hlen, VectorDirection_up hs R hR]

end StartPlacement

/-- C20: the canonical start placement already touches the paddle: for every field width
and height and every ball radius `R > 0`, with the paddle of size `PLAYER_SIZE` at
`(Width / 2 - PLAYER_SIZE.x / 2, Height - PLAYER_SIZE.y)` and the ball of radius `R` at
the paddle position plus `(PLAYER_SIZE.x / 2 - R, -2R)`, as `Init` and `ResetPlayer` place
them, the circle-vs-box `CheckCollision` between ball and paddle reports contact with
direction Up and vector `(0, R)`. -/
theorem start_placement_touches_paddle (sqrt : K → K) (hs : IsSqrt sqrt) (R : K) (hR : 0 < R)
    (Width Height : Nat) :
    (∀ (ball : BallObject K) (player : GameObject K),
        player.Position = playerStart Width Height → player.Size = PLAYER_SIZE →
        ball.Position = ballStart R Width Height → ball.Radius = R →
        CheckCollision sqrt ball player = (true, UP, ⟨0, R⟩)) ∧
      (∀ (v0 : Vec2 K) (g : Game K), g.Width = Width → g.Height = Height →
        g.Ball.Radius = R →
        (ResetPlayer R v0 g).Player.Position = playerStart Width Height ∧
          (ResetPlayer R v0 g).Ball.Position = ballStart R Width Height ∧
          CheckCollision sqrt (ResetPlayer R v0 g).Ball (ResetPlayer R v0 g).Player =
            (true, UP, ⟨0, R⟩)) := by
  have key : ∀ (ball : BallObject K) (player : GameObject K),
      player.Position = playerStart Width Height → player.Size = PLAYER_SIZE →
      ball.Position = ballStart R Width Height → ball.Radius = R →
      CheckCollision sqrt ball player = (true, UP, ⟨0, R⟩) := by
    intro ball player hpp hps hbp hbr
    apply start_contact hs R hR ball player hps hbr
    · rw [hbp, hpp]
      rfl
    · rw [hbp, hpp]
      show (playerStart Width Height : Vec2 K).y + -R * 2 =
        (playerStart Width Height : Vec2 K).y + -(R * 2)
      ring
  refine ⟨key, ?_⟩
  intro v0 g hW hH hr
  have hb : (ResetPlayer R v0 g).Ball.Position = ballStart R Width Height := by
    rw [← hW, ← hH]
    apply Vec2.ext
    · rfl
    · show (playerStart g.Width g.Height : Vec2 K).y + -(R * 2) =
        (playerStart g.Width g.Height : Vec2 K).y + -R * 2
      ring
  have hp : (ResetPlayer R v0 g).Player.Position = playerStart Width Height := by
    rw [← hW, ← hH]
    rfl
  exact ⟨hp, hb, key _ _ hp rfl hb hr⟩

/-- Witness of C20: an 800 by 600 field and a ball of radius 10, the round reset from the
game whose ball fell below the field. -/
theorem start_placement_touches_paddle_witness :
    CheckCollision Real.sqrt (ResetPlayer 10 ⟨100, -350⟩ (fallenGame : Game ℝ)).Ball
        (ResetPlayer 10 ⟨100, -350⟩ (fallenGame : Game ℝ)).Player =
      (true, UP, ⟨0, 10⟩) :=
  ((start_placement_touches_paddle Real.sqrt isSqrt_real 10 (by norm_num) 800 600).2
    ⟨100, -350⟩ fallenGame rfl rfl rfl).2.2

/-! ## C11 -/

section Destroyed

/-- A destroyed brick is skipped by the brick step. -/
theorem brick_of_destroyed (sqrt : K → K) (ball : BallObject K) (box : GameObject K)
    (hd : box.Destroyed = true) : DoCollisions.brick sqrt ball box = (ball, box) := by
  simp [DoCollisions.brick, hd]

/-- The brick step never clears the destroyed flag. -/
theorem brick_keeps_destroyed (sqrt : K → K) (ball : BallObject K) (box : GameObject K)
    (hd : box.Destroyed = true) : (DoCollisions.brick sqrt ball box).2.Destroyed = true := by
  rw [brick_of_destroyed sqrt ball box hd]
  exact hd

/-- The brick loop never clears a destroyed flag: brick by brick, in list order. -/
theorem bricks_keep_destroyed (sqrt : K → K) (l : List (GameObject K)) :
    ∀ ball : BallObject K,
      List.Forall₂ (fun box box1 : GameObject K => box.Destroyed = true → box1.Destroyed = true)
        l (DoCollisions.bricks sqrt ball l).2 := by
  induction l with
  | nil => intro ball; exact List.Forall₂.nil
  | cons box rest ih =>
    intro ball
    exact List.Forall₂.cons (brick_keeps_destroyed sqrt ball box)
      (ih (DoCollisions.brick sqrt ball box).1)

/-- The ball after the brick loop does not depend on the destroyed bricks of the list. -/
theorem bricks_ball_filter (sqrt : K → K) (l : List (GameObject K)) :
    ∀ ball : BallObject K,
      (DoCollisions.bricks sqrt ball l).1 =
        (DoCollisions.bricks sqrt ball (l.filter (fun box => !box.Destroyed))).1 := by
  induction l with
  | nil => intro ball; rfl
  | cons box rest ih =>
    intro ball
    by_cases hd : box.Destroyed = true
    · have hf : (box :: rest).filter (fun box => !box.Destroyed) =
          rest.filter (fun box => !box.Destroyed) := by
        simp [List.filter_cons, hd]
      rw [hf, ← ih ball]
      show (DoCollisions.bricks sqrt (DoCollisions.brick sqrt ball box).1 rest).1 = _
      rw [brick_of_destroyed sqrt ball box hd]
    · have hf : (box :: rest).filter (fun box => !box.Destroyed) =
          box :: rest.filter (fun box => !box.Destroyed) := by
        simp [List.filter_cons, hd]
      rw [hf]
      show (DoCollisions.bricks sqrt (DoCollisions.brick sqrt ball box).1 rest).1 =
        (DoCollisions.bricks sqrt (DoCollisions.brick sqrt ball box).1
          (rest.filter (fun box => !box.Destroyed))).1
      exact ih _

/-- The active bricks after `DoCollisions` are the bricks the loop leaves. -/
theorem DoCollisions_activeBricks (sqrt : K → K) (toInt : K → Int) (v0 : Vec2 K) (g : Game K) :
    (DoCollisions sqrt toInt v0 g).activeBricks =
      (DoCollisions.bricks sqrt g.Ball g.activeBricks).2 := by
  unfold DoCollisions Game.activeBricks
  simp only [List.getElem?_modify_eq]
  cases h : g.Levels[g.Level]? with
  | none => rfl
  | some lv => rfl

/-- The levels other than the active one are not touched by `DoCollisions`. -/
theorem DoCollisions_other_levels (sqrt : K → K) (toInt : K → Int) (v0 : Vec2 K) (g : Game K) (i : Nat)
    (hi : i ≠ g.Level) : (DoCollisions sqrt toInt v0 g).Levels[i]? = g.Levels[i]? := by
  unfold DoCollisions
  simp only []
  exact List.getElem?_modify_ne _ _ (Ne.symm hi)

/-- The active bricks of the game without its destroyed bricks. -/
theorem dropDestroyed_activeBricks (g : Game K) :
    g.dropDestroyed.activeBricks = g.activeBricks.filter (fun box => !box.Destroyed) := by
  unfold Game.dropDestroyed Game.activeBricks
  simp only [List.getElem?_modify_eq]
  cases h : g.Levels[g.Level]? with
  | none => rfl
  | some lv => rfl

end Destroyed

/-- C11: a destroyed brick stays destroyed and takes no part in collision.  For every
game, `DoCollisions` never changes a brick's `Destroyed` flag from true to false (brick by
brick in the active level, the other levels being left as they are), and the ball it
produces, position and velocity included, is the one produced when every already
destroyed brick is removed from the brick list of the level. -/
theorem destroyed_bricks_take_no_part (sqrt : K → K) (toInt : K → Int) (v0 : Vec2 K) (g : Game K) :
    List.Forall₂ (fun box box1 : GameObject K => box.Destroyed = true → box1.Destroyed = true)
        g.activeBricks (DoCollisions sqrt toInt v0 g).activeBricks ∧
      (∀ i : Nat, i ≠ g.Level → (DoCollisions sqrt toInt v0 g).Levels[i]? = g.Levels[i]?) ∧
      (DoCollisions sqrt toInt v0 g).Ball.Position =
        (DoCollisions sqrt toInt v0 g.dropDestroyed).Ball.Position ∧
      (DoCollisions sqrt toInt v0 g).Ball.Velocity =
        (DoCollisions sqrt toInt v0 g.dropDestroyed).Ball.Velocity ∧
      (DoCollisions sqrt toInt v0 g).Ball = (DoCollisions sqrt toInt v0 g.dropDestroyed).Ball := by
  have hb : (DoCollisions sqrt toInt v0 g).Ball = (DoCollisions sqrt toInt v0 g.dropDestroyed).Ball := by
    rw [DoCollisions_Ball, DoCollisions_Ball, dropDestroyed_activeBricks,
      ← bricks_ball_filter sqrt g.activeBricks]
    rfl
  refine ⟨?_, DoCollisions_other_levels sqrt toInt v0 g, ?_, ?_, hb⟩
  · rw [DoCollisions_activeBricks]
    exact bricks_keep_destroyed sqrt g.activeBricks g.Ball
  · rw [hb]
  · rw [hb]

end Breakout

